import Mathlib

/-! Zaparoo Core: the token pipeline.

A shallow embedding of the key-sequence reader and input commands
(pkg/zapscript/input.go), the script dispatcher and the event loop
(pkg/service/service.go), the shared runtime state
(pkg/service/state/state.go), the link resolution (pkg/zapscript/online.go)
and the command-line flags (pkg/cli/cli.go), with the properties proved about
them.

Conventions of the embedding.

* A Go string is a Lean `String`: the sequence of runes that `range` yields.
* A Go `error` is `Option GoError`: `none` is the nil error, `some msg` an
  error whose message is `msg`.
* A Go function returning `(value, error)` returns a pair in the same order;
  a nil slice is the empty list.
* Calls on a collaborator (platform, handler, channel) are recorded, in
  program order, in a trace that the embedded function returns.
* Logging and `time.Sleep` have no effect on any modelled value and are left
  out.
-/

namespace Zaparoo

/-- The message carried by a non-nil Go error. -/
abbrev GoError := String

/-! ## pkg/zapscript/input.go: readKeys -/

/-- The loop of readKeys over the remaining runes, carrying the local
variables names, inEscape, inName and name; the base case is the code after
the loop. -/
def readKeysLoop : List Char → List String → Bool → Bool → String →
    List String × Option GoError
  | [], names, _, inName, _ =>
    if inName then
      ([], some "missing \x7d")
    else
      (names, none)
  | c :: cs, names, inEscape, inName, name =>
    if inEscape then
      readKeysLoop cs names false inName (name ++ String.singleton c)
    else if c = '\\' then
      readKeysLoop cs names true inName name
    else if c = '\x7b' then
      if inName then
        ([], some "unexpected \x7b")
      else
        readKeysLoop cs names inEscape true name
    else if c = '\x7d' then
      if !inName then
        ([], some "unexpected \x7d")
      else
        readKeysLoop cs (names ++ [name]) inEscape false ""
    else if inName then
      readKeysLoop cs names inEscape inName (name ++ String.singleton c)
    else
      readKeysLoop cs (names ++ [String.singleton c]) inEscape inName name

/-- Converts a string to a list of key symbols (readKeys). -/
def readKeys (keys : String) : List String × Option GoError :=
  readKeysLoop keys.toList [] false false ""

/-- The three characters that readKeys treats specially: backslash and the two
braces. -/
def isSpecial (c : Char) : Bool :=
  c = '\\' || c = '\x7b' || c = '\x7d'

/-- A string with no backslash and no brace. -/
def isPlain (s : String) : Prop :=
  ∀ c ∈ s.toList, isSpecial c = false

instance (s : String) : Decidable (isPlain s) := by
  unfold isPlain; infer_instance

/-- The ways a brace structure can be broken, in the words of the
specification. -/
inductive BraceFault where
  | unexpectedOpen
  | unexpectedClose
  | missingClose
  deriving DecidableEq, Repr

/-- The specification of the brace check, independent of readKeys: scan left to
right remembering only whether the scan is inside a brace name; an opening
brace inside a name, a closing brace outside a name, and the end of input
inside a name are the three faults. Other characters are skipped. -/
def braceScan : Bool → List Char → Option BraceFault
  | inside, [] => if inside then some .missingClose else none
  | inside, c :: cs =>
    if c = '\x7b' then
      if inside then some .unexpectedOpen else braceScan true cs
    else if c = '\x7d' then
      if inside then braceScan false cs else some .unexpectedClose
    else
      braceScan inside cs

/-- The error message readKeys gives for each fault. -/
def BraceFault.message : BraceFault → GoError
  | .unexpectedOpen => "unexpected \x7b"
  | .unexpectedClose => "unexpected \x7d"
  | .missingClose => "missing \x7d"

/-! ## Tokens, playlists and command results

The packages tokens, playlists and platforms are used by the modelled code but
their declarations are not part of the sources at hand; the records below carry
the fields that the modelled code reads and writes. -/

/-- The type time.Time as an offset from the zero instant; the zero value of the
type is offset 0. -/
abbrev Time := Int

/-- The method Time.IsZero. -/
def Time.IsZero (t : Time) : Bool := t == 0

/-- The record tokens.Token, with the fields the service reads. -/
structure Token where
  Type_ : String
  UID : String
  Text : String
  Data : String
  ScanTime : Time
  FromAPI : Bool
  Source : String
  deriving DecidableEq, Repr, Inhabited

/-- The zero value of tokens.Token. -/
def Token.zero : Token :=
  { Type_ := "", UID := "", Text := "", Data := "", ScanTime := 0,
    FromAPI := false, Source := "" }

/-- An entry of a playlist, as returned by Current. -/
structure PlaylistItem where
  Path : String
  deriving DecidableEq, Repr, Inhabited

/-- Modelled from the spec: the record playlists.Playlist, an ordered sequence
of media entries, a cursor index and a playing flag. -/
structure Playlist where
  Items : List PlaylistItem
  Index : Nat
  Playing : Bool
  deriving DecidableEq, Repr, Inhabited

/-- The record playlists.PlaylistController: the active playlist (nullable) and
the playlist queue, a channel that is identified here by a number. -/
structure PlaylistController where
  Active : Option Playlist
  Queue : Nat
  deriving DecidableEq, Repr, Inhabited

/-- The record platforms.CmdResult. -/
structure CmdResult where
  MediaChanged : Bool
  PlaylistChanged : Bool
  Playlist : Option Playlist
  deriving DecidableEq, Repr, Inhabited

/-- The zero value of platforms.CmdResult, written CmdResult{} in the source. -/
def CmdResult.zero : CmdResult :=
  { MediaChanged := false, PlaylistChanged := false, Playlist := none }

/-- The record platforms.CmdEnv, with the fields the input commands read. -/
structure CmdEnv where
  Args : String
  Unsafe : Bool
  deriving DecidableEq, Repr, Inhabited

/-! ## The platform as a collaborator -/

/-- A call made on the platform by an input command. -/
inductive PlatformCall where
  | KeyboardInput (s : String)
  | KeyboardPress (name : String)
  | GamepadPress (name : String)
  deriving DecidableEq, Repr

/-- The input methods of the interface platforms.Platform. The platform has an
internal state of type σ; each method returns its error and the next state. -/
structure Platform (σ : Type) where
  KeyboardInput : σ → String → Option GoError × σ
  KeyboardPress : σ → String → Option GoError × σ
  GamepadPress : σ → String → Option GoError × σ

/-- The state of a platform together with the calls made on it so far, oldest
first. -/
structure PlatformRun (σ : Type) where
  state : σ
  calls : List PlatformCall

/-- The call pl.KeyboardInput(s), recorded. -/
def Platform.doKeyboardInput {σ : Type} (pl : Platform σ) (r : PlatformRun σ) (s : String) :
    Option GoError × PlatformRun σ :=
  ((pl.KeyboardInput r.state s).1,
    { state := (pl.KeyboardInput r.state s).2, calls := r.calls ++ [.KeyboardInput s] })

/-- The call pl.KeyboardPress(name), recorded. -/
def Platform.doKeyboardPress {σ : Type} (pl : Platform σ) (r : PlatformRun σ) (name : String) :
    Option GoError × PlatformRun σ :=
  ((pl.KeyboardPress r.state name).1,
    { state := (pl.KeyboardPress r.state name).2, calls := r.calls ++ [.KeyboardPress name] })

/-- The call pl.GamepadPress(name), recorded. -/
def Platform.doGamepadPress {σ : Type} (pl : Platform σ) (r : PlatformRun σ) (name : String) :
    Option GoError × PlatformRun σ :=
  ((pl.GamepadPress r.state name).1,
    { state := (pl.GamepadPress r.state name).2, calls := r.calls ++ [.GamepadPress name] })

/-! ## pkg/zapscript/input.go: the input commands -/

/-- The error of the unsafe gate. -/
def errRemoteSource : GoError := "command cannot be run from a remote source"

/-- The deprecated command cmdKey. -/
def cmdKey {σ : Type} (pl : Platform σ) (env : CmdEnv) (r : PlatformRun σ) :
    (CmdResult × Option GoError) × PlatformRun σ :=
  if env.Unsafe then
    ((CmdResult.zero, some errRemoteSource), r)
  else
    ((CmdResult.zero, (pl.doKeyboardInput r env.Args).1), (pl.doKeyboardInput r env.Args).2)

/-- The loop over the key names in cmdKeyboard and cmdGamepad: press each name
in order and return at the first press that fails. -/
def pressLoop {σ : Type} (press : PlatformRun σ → String → Option GoError × PlatformRun σ) :
    List String → PlatformRun σ → (CmdResult × Option GoError) × PlatformRun σ
  | [], r => ((CmdResult.zero, none), r)
  | name :: rest, r =>
    match press r name with
    | (some err, r1) => ((CmdResult.zero, some err), r1)
    | (none, r1) => pressLoop press rest r1

/-- The command cmdKeyboard. -/
def cmdKeyboard {σ : Type} (pl : Platform σ) (env : CmdEnv) (r : PlatformRun σ) :
    (CmdResult × Option GoError) × PlatformRun σ :=
  if env.Unsafe then
    ((CmdResult.zero, some errRemoteSource), r)
  else
    match readKeys env.Args with
    | (_, some err) => ((CmdResult.zero, some err), r)
    | (names, none) => pressLoop pl.doKeyboardPress names r

/-- The command cmdGamepad. -/
def cmdGamepad {σ : Type} (pl : Platform σ) (env : CmdEnv) (r : PlatformRun σ) :
    (CmdResult × Option GoError) × PlatformRun σ :=
  if env.Unsafe then
    ((CmdResult.zero, some errRemoteSource), r)
  else
    match readKeys env.Args with
    | (_, some err) => ((CmdResult.zero, some err), r)
    | (names, none) => pressLoop pl.doGamepadPress names r

/-- The value of a decimal digit. -/
def digitValue (c : Char) : Option Nat :=
  if '0' ≤ c ∧ c ≤ '9' then some (c.toNat - '0'.toNat) else none

/-- The value of a run of decimal digits, most significant first, on top of the
value accumulated so far. -/
def parseDigits : List Char → Nat → Option Nat
  | [], acc => some acc
  | c :: cs, acc =>
    match digitValue c with
    | some d => parseDigits cs (acc * 10 + d)
    | none => none

/-- The library function strconv.Atoi for a 64-bit int: an optional sign, then
one or more decimal digits, with a value that fits the type. The error keeps
the cause (syntax or range) only. -/
def Atoi (s : String) : Int × Option GoError :=
  let unsigned (ds : List Char) (neg : Bool) : Int × Option GoError :=
    if ds = [] then (0, some "invalid syntax")
    else
      match parseDigits ds 0 with
      | none => (0, some "invalid syntax")
      | some n =>
        if neg then
          if n ≤ 2 ^ 63 then (-(n : Int), none) else (-(2 ^ 63 : Int), some "value out of range")
        else
          if n < 2 ^ 63 then ((n : Int), none) else ((2 ^ 63 - 1 : Int), some "value out of range")
  match s.toList with
  | '-' :: ds => unsigned ds true
  | '+' :: ds => unsigned ds false
  | ds => unsigned ds false

/-- The loop of insertCoin: one KeyboardInput call per coin, with the error of
each call discarded. -/
def coinLoop {σ : Type} (pl : Platform σ) (key : String) : Nat → PlatformRun σ → PlatformRun σ
  | 0, r => r
  | n + 1, r => coinLoop pl key n (pl.doKeyboardInput r key).2

/-- The helper insertCoin. -/
def insertCoin {σ : Type} (pl : Platform σ) (env : CmdEnv) (key : String) (r : PlatformRun σ) :
    (CmdResult × Option GoError) × PlatformRun σ :=
  match Atoi env.Args with
  | (_, some err) => ((CmdResult.zero, some err), r)
  | (amount, none) => ((CmdResult.zero, none), coinLoop pl key amount.toNat r)

/-- The command cmdCoinP1. -/
def cmdCoinP1 {σ : Type} (pl : Platform σ) (env : CmdEnv) (r : PlatformRun σ) :
    (CmdResult × Option GoError) × PlatformRun σ :=
  insertCoin pl env "6" r

/-- The command cmdCoinP2. -/
def cmdCoinP2 {σ : Type} (pl : Platform σ) (env : CmdEnv) (r : PlatformRun σ) :
    (CmdResult × Option GoError) × PlatformRun σ :=
  insertCoin pl env "7" r

/-! ## pkg/service/service.go: launchToken -/

/-- The library call strings.Split(text, "||") on the runes of text: cur is the
segment read so far. The separator is taken at its leftmost occurrence and the
scan goes on behind it. -/
def splitBars : List Char → List Char → List String
  | cur, [] => [String.mk cur]
  | cur, [c] => [String.mk (cur ++ [c])]
  | cur, c :: d :: rest =>
    if c = '|' ∧ d = '|' then
      String.mk cur :: splitBars [] rest
    else
      splitBars (cur ++ [c]) (d :: rest)

/-- The sub-commands of a script text: strings.Split(text, "||"). -/
def splitCmds (text : String) : List String :=
  splitBars [] text.toList

/-- One call of the sub-command handler zapscript.LaunchToken: the arguments it
was given and what it returned. -/
structure Invocation where
  plsc : PlaylistController
  token : Token
  cmd : String
  total : Nat
  index : Nat
  result : CmdResult
  err : Option GoError
  deriving DecidableEq, Repr

/-- What launchToken does to its collaborators: a call of the sub-command
handler, or a send of the token on the last-launched queue lsq. -/
inductive Event where
  | call (inv : Invocation)
  | publish (token : Token)
  deriving DecidableEq, Repr

/-- The sub-command handler zapscript.LaunchToken, which is not part of the
sources at hand, as a collaborator with an internal state of type ω (platform,
configuration and whatever else it touches): given the playlist controller,
the token, the sub-command text, the number of sub-commands and the index of
this one, it returns its result, its error and the next state. -/
abbrev SubHandler (ω : Type) :=
  ω → PlaylistController → Token → String → Nat → Nat → (CmdResult × Option GoError) × ω

/-- The handler calls of a trace, in order. -/
def invocations : List Event → List Invocation
  | [] => []
  | .call inv :: es => inv :: invocations es
  | .publish _ :: es => invocations es

/-- The tokens sent on the last-launched queue in a trace, in order. -/
def published : List Event → List Token
  | [] => []
  | .call _ :: es => published es
  | .publish t :: es => t :: published es

/-- The loop of launchToken over the sub-commands still to run: i is the index
of the next one and pls the local variable pls. Returns the error, the trace
and the final state of the handler. -/
def launchLoop {ω : Type} (handler : SubHandler ω) (token : Token) (queue : Nat) (total : Nat) :
    List String → Nat → Option Playlist → ω → Option GoError × List Event × ω
  | [], _, _, w => (none, [], w)
  | cmd :: rest, i, pls, w =>
    let plsc : PlaylistController := { Active := pls, Queue := queue }
    let out := handler w plsc token cmd total i
    let result := out.1.1
    let err := out.1.2
    let inv : Invocation :=
      { plsc := plsc, token := token, cmd := cmd, total := total, index := i,
        result := result, err := err }
    match err with
    | some e => (some e, [.call inv], out.2)
    | none =>
      let sent : List Event :=
        if result.MediaChanged && !token.FromAPI then [.publish token] else []
      let pls1 := if result.PlaylistChanged then result.Playlist else pls
      let tail := launchLoop handler token queue total rest (i + 1) pls1 out.2
      (tail.1, .call inv :: (sent ++ tail.2.1), tail.2.2)

/-- The script text that launchToken runs: the text of the token, replaced by
the mapping text when getMapping reports a mapping. -/
def scriptText (getMapping : Token → String × Bool) (token : Token) : String :=
  if (getMapping token).2 then (getMapping token).1 else token.Text

/-- The function launchToken. The mapping lookup getMapping (not part of the
sources at hand) is a parameter; it returns the mapping text and whether a
mapping was found. -/
def launchToken {ω : Type} (getMapping : Token → String × Bool) (handler : SubHandler ω)
    (token : Token) (plsc : PlaylistController) (w : ω) : Option GoError × List Event × ω :=
  let text := token.Text
  let mappingText := (getMapping token).1
  let mapped := (getMapping token).2
  let text := if mapped then mappingText else text
  if text = "" then
    (some "no ZapScript in token", [], w)
  else
    let cmds := splitCmds text
    launchLoop handler token plsc.Queue cmds.length cmds 0 plsc.Active w

/-! ## pkg/service/state/state.go: the shared state -/

/-- The notification methods used by the state. -/
inductive NotificationMethod where
  | TokensAdded
  | TokensRemoved
  | ReadersConnected
  | ReadersDisconnected
  deriving DecidableEq, Repr

/-- The record models.TokenResponse. -/
structure TokenResponse where
  Type_ : String
  UID : String
  Text : String
  Data : String
  ScanTime : Time
  deriving DecidableEq, Repr

/-- The parameters of a notification: absent, a token response, or a device
name. -/
inductive NotificationParams where
  | absent
  | token (t : TokenResponse)
  | device (d : String)
  deriving DecidableEq, Repr

/-- The record models.Notification. -/
structure Notification where
  Method : NotificationMethod
  Params : NotificationParams
  deriving DecidableEq, Repr

/-- A reader held in the reader map: none is a nil interface value, a number
identifies a reader handle. -/
abbrev Reader := Option Nat

/-- The record State. The lock mu guards every access and has no value of its
own; a map is a list of key and value pairs; the context and its cancel
function are one flag, set once the context is cancelled; the notification
channel is the list of notifications that each operation returns; the
platform reference is never written after NewState. -/
structure State where
  runZapScript : Bool
  activeToken : Token
  lastScanned : Token
  stopService : Bool
  readers : List (String × Reader)
  softwareToken : Option Token
  wroteToken : Option Token
  activePlaylist : Option Playlist
  ctxCancelled : Bool
  deriving DecidableEq, Repr

/-- The constructor NewState. -/
def NewState : State :=
  { runZapScript := true, activeToken := Token.zero, lastScanned := Token.zero,
    stopService := false, readers := [], softwareToken := none, wroteToken := none,
    activePlaylist := none, ctxCancelled := false }

/-- Modelled from the spec: the helper utils.TokensEqual, which is not part of
the sources at hand. Two tokens are the same scan when UID, payload and
origin match. -/
def TokensEqual (a b : Token) : Bool :=
  a.UID == b.UID && a.Text == b.Text && a.Source == b.Source

/-- The method State.SetActiveCard, with the token equality it calls as a
parameter. Returns the next state and the notifications sent, in order. -/
def State.SetActiveCard (tokensEqual : Token → Token → Bool) (s : State) (card : Token) :
    State × List Notification :=
  if tokensEqual s.activeToken card then
    (s, [])
  else
    let s1 := { s with activeToken := card }
    if !s1.activeToken.ScanTime.IsZero then
      ({ s1 with lastScanned := card },
        [{ Method := .TokensAdded,
           Params := .token { Type_ := card.Type_, UID := card.UID, Text := card.Text,
                              Data := card.Data, ScanTime := card.ScanTime } }])
    else
      (s1, [{ Method := .TokensRemoved, Params := .absent }])

/-- The method State.GetActiveCard. -/
def State.GetActiveCard (s : State) : Token := s.activeToken

/-- The method State.GetLastScanned. -/
def State.GetLastScanned (s : State) : Token := s.lastScanned

/-! ## Spec-side notions and sample values -/

/-- A run of launchToken dispatches the script text. With an empty text the run
returns the error of the missing script and calls nothing. With a text that is
not empty the handler is called at least once; the calls are, in order, an
initial part of the segments of the text, each with its index and the number
of segments; every call but the last returned no error and the error of the
last call is the error of the run; and a run that returns no error has called
every segment, so that its sub-commands joined by the separator are the
text. -/
def Dispatches {ω : Type} (r : Option GoError × List Event × ω) (text : String) : Prop :=
  (text = "" → r.1 = some "no ZapScript in token" ∧ r.2.1 = []) ∧
  (text ≠ "" →
    invocations r.2.1 ≠ [] ∧
    (invocations r.2.1).map (fun v => (v.cmd, v.index, v.total)) =
      ((splitCmds text).enum.map (fun p => (p.2, p.1, (splitCmds text).length))).take
        (invocations r.2.1).length ∧
    (invocations r.2.1).map (fun v => v.err) =
      List.replicate ((invocations r.2.1).length - 1) none ++ [r.1] ∧
    (r.1 = none →
      (invocations r.2.1).map (fun v => v.cmd) = splitCmds text ∧
      String.intercalate "||" ((invocations r.2.1).map (fun v => v.cmd)) = text))

/-- A sample platform whose state counts the calls made on it and whose calls
never fail. -/
def countingPlatform : Platform Nat :=
  { KeyboardInput := fun n _ => (none, n + 1),
    KeyboardPress := fun n _ => (none, n + 1),
    GamepadPress := fun n _ => (none, n + 1) }

/-- A sample run of the counting platform with no call made yet. -/
def freshRun : PlatformRun Nat := { state := 0, calls := [] }

/-- A sample handler that fails on the sub-command B and succeeds, with no
effect, on every other; its state counts its calls. -/
def failOnB : SubHandler Nat := fun w _ _ cmd _ _ =>
  if cmd = "B" then ((CmdResult.zero, some "B failed"), w + 1)
  else ((CmdResult.zero, none), w + 1)

/-- A sample handler that always succeeds and reports a media change. -/
def mediaHandler : SubHandler Nat := fun w _ _ _ _ _ =>
  (({ MediaChanged := true, PlaylistChanged := false, Playlist := none }, none), w + 1)

/-- A mapping lookup that finds nothing. -/
def noMapping : Token → String × Bool := fun _ => ("", false)

/-- A mapping lookup that always finds the given text. -/
def constMapping (text : String) : Token → String × Bool := fun _ => (text, true)

/-- A sample token scanned on a reader. -/
def sampleToken : Token :=
  { Type_ := "NTAG", UID := "04AABB", Text := "A||B||C", Data := "", ScanTime := 1700000000,
    FromAPI := false, Source := "reader" }

/-- A sample controller with no active playlist. -/
def noPlaylist : PlaylistController := { Active := none, Queue := 0 }

/-! ## pkg/service/state/state.go: the remaining operations -/

/-- The method State.StopService: sets the stop flag and calls the cancel
function of the context. -/
def State.StopService (s : State) : State :=
  { s with stopService := true, ctxCancelled := true }

/-- The method State.ShouldStopService. -/
def State.ShouldStopService (s : State) : Bool := s.stopService

/-- Whether the channel GetContext().Done() is closed, which is the case once
the context is cancelled. -/
def State.Done (s : State) : Bool := s.ctxCancelled

/-- The method State.SetRunZapScript. -/
def State.SetRunZapScript (s : State) (run : Bool) : State :=
  { s with runZapScript := run }

/-- The method State.RunZapScriptEnabled. -/
def State.RunZapScriptEnabled (s : State) : Bool := s.runZapScript

/-- The method State.SetSoftwareToken. -/
def State.SetSoftwareToken (s : State) (token : Option Token) : State :=
  { s with softwareToken := token }

/-- The method State.GetSoftwareToken. -/
def State.GetSoftwareToken (s : State) : Option Token := s.softwareToken

/-- The method State.SetWroteToken. -/
def State.SetWroteToken (s : State) (token : Option Token) : State :=
  { s with wroteToken := token }

/-- The method State.GetWroteToken. -/
def State.GetWroteToken (s : State) : Option Token := s.wroteToken

/-- The method State.GetActivePlaylist. -/
def State.GetActivePlaylist (s : State) : Option Playlist := s.activePlaylist

/-- The method State.SetActivePlaylist. -/
def State.SetActivePlaylist (s : State) (playlist : Option Playlist) : State :=
  { s with activePlaylist := playlist }

/-- The map assignment readers[device] = reader. -/
def readersStore (m : List (String × Reader)) (device : String) (reader : Reader) :
    List (String × Reader) :=
  (device, reader) :: m.filter (fun e => e.1 != device)

/-- The map deletion delete(readers, device). -/
def readersDelete (m : List (String × Reader)) (device : String) : List (String × Reader) :=
  m.filter (fun e => e.1 != device)

/-- The method State.GetReader: the value stored under the device and whether
the key is present; the zero value nil when it is not. -/
def State.GetReader (s : State) (device : String) : Reader × Bool :=
  match s.readers.lookup device with
  | some r => (r, true)
  | none => (none, false)

/-- The method Close of the reader handles, as a collaborator with an internal
state of type ρ: given a handle it returns its error and the next state. -/
abbrev CloseFn (ρ : Type) := ρ → Nat → Option GoError × ρ

/-- What SetReader and RemoveReader leave behind: the next state, the
notifications sent, the handles on which Close was called, each with the error
that Close returned, both in order, and the next state of the reader
handles. -/
structure ReaderOutcome (ρ : Type) where
  state : State
  notifications : List Notification
  closed : List (Nat × Option GoError)
  world : ρ

/-- The method State.SetReader. The result none is the runtime failure of the
call r.Close() on a nil interface value, which happens when the key is present
with the value nil; the error of Close is logged and otherwise ignored. -/
def State.SetReader {ρ : Type} (close : CloseFn ρ) (s : State) (device : String)
    (reader : Reader) (w : ρ) : Option (ReaderOutcome ρ) :=
  let note : Notification := { Method := .ReadersConnected, Params := .device device }
  match s.readers.lookup device with
  | some (some h) =>
    some { state := { s with readers := readersStore s.readers device reader },
           notifications := [note], closed := [(h, (close w h).1)], world := (close w h).2 }
  | some none => none
  | none =>
    some { state := { s with readers := readersStore s.readers device reader },
           notifications := [note], closed := [], world := w }

/-- The method State.RemoveReader. -/
def State.RemoveReader {ρ : Type} (close : CloseFn ρ) (s : State) (device : String) (w : ρ) :
    ReaderOutcome ρ :=
  let note : Notification := { Method := .ReadersDisconnected, Params := .device device }
  match s.readers.lookup device with
  | some (some h) =>
    { state := { s with readers := readersDelete s.readers device },
      notifications := [note], closed := [(h, (close w h).1)], world := (close w h).2 }
  | _ =>
    { state := { s with readers := readersDelete s.readers device },
      notifications := [note], closed := [], world := w }

/-- The operations of State that write to it. -/
inductive StateOp where
  | SetActiveCard (card : Token)
  | StopService
  | SetRunZapScript (run : Bool)
  | SetReader (device : String) (reader : Reader)
  | RemoveReader (device : String)
  | SetSoftwareToken (token : Option Token)
  | SetWroteToken (token : Option Token)
  | SetActivePlaylist (playlist : Option Playlist)
  deriving DecidableEq, Repr

/-- One operation on the state; none when the operation fails at run time. The
reading operations leave the state as it is and are not listed. -/
def State.apply {ρ : Type} (tokensEqual : Token → Token → Bool) (close : CloseFn ρ)
    (s : State) (w : ρ) : StateOp → Option (State × ρ)
  | .SetActiveCard card => some ((s.SetActiveCard tokensEqual card).1, w)
  | .StopService => some (s.StopService, w)
  | .SetRunZapScript run => some (s.SetRunZapScript run, w)
  | .SetReader device reader =>
    match s.SetReader close device reader w with
    | some out => some (out.state, out.world)
    | none => none
  | .RemoveReader device =>
    some ((s.RemoveReader close device w).state, (s.RemoveReader close device w).world)
  | .SetSoftwareToken token => some (s.SetSoftwareToken token, w)
  | .SetWroteToken token => some (s.SetWroteToken token, w)
  | .SetActivePlaylist playlist => some (s.SetActivePlaylist playlist, w)

/-- A sequence of operations on the state, one after the other; none as soon
as one of them fails at run time. -/
def State.applyAll {ρ : Type} (tokensEqual : Token → Token → Bool) (close : CloseFn ρ) :
    State → ρ → List StateOp → Option (State × ρ)
  | s, w, [] => some (s, w)
  | s, w, op :: ops =>
    match s.apply tokensEqual close w op with
    | some (s1, w1) => State.applyAll tokensEqual close s1 w1 ops
    | none => none

/-- Whether an operation is a call of SetReader. -/
def StateOp.isSetReader : StateOp → Bool
  | .SetReader _ _ => true
  | _ => false

/-- A sample Close that fails on every handle and counts its calls. -/
def failingClose : CloseFn Nat := fun w _ => (some "close failed", w + 1)

/-- A sample state: the fresh state after StopService, a scan of the sample
token and a clearing of the run flag. -/
def stoppedSample : State :=
  { runZapScript := false, activeToken := sampleToken, lastScanned := sampleToken,
    stopService := true, readers := [], softwareToken := none, wroteToken := none,
    activePlaylist := none, ctxCancelled := true }

/-! ## pkg/service/service.go: processTokenQueue -/

/-- The record database.HistoryEntry. -/
structure HistoryEntry where
  DBID : Int
  Time : Time
  Type_ : String
  UID : String
  Text : String
  Data : String
  Success : Bool
  deriving DecidableEq, Repr

/-- Modelled from the spec: the method Playlist.Current, the entry at the
cursor; the zero entry stands for a cursor outside the sequence. -/
def Playlist.Current (p : Playlist) : PlaylistItem :=
  p.Items.getD p.Index default

/-- Modelled from the spec: the constant tokens.SourcePlaylist, the origin of a
token launched from a playlist. -/
def SourcePlaylist : String := "playlist"

/-- The collaborators of the event loop, with one internal state of type ω for
all of them: the after-scan hook of the platform, the history of the database,
the wall clock (which never shows the zero instant of time.Time), the mapping
lookup and the sub-command handler. -/
structure Collab (ω : Type) where
  AfterScanHook : ω → Token → Option GoError × ω
  AddHistory : ω → HistoryEntry → Option GoError × ω
  Now : ω → Time
  Now_nonzero : ∀ w, (Now w).IsZero = false
  getMapping : Token → String × Bool
  handler : SubHandler ω

/-- A function started with the go statement by the event loop, with the
variables it captures: the closure launchPlaylistMedia (the playlist update and
the playlist that was active when the update was received), or the function
that launches a scanned token (the token and the prepared history entry). -/
inductive Task where
  | launchPlaylistMedia (pls : Playlist) (activePlaylist : Option Playlist)
  | launchScanned (t : Token) (he : HistoryEntry)
  deriving DecidableEq, Repr

/-- What the event loop and the functions it starts do to the collaborators: a
call of the after-scan hook, a call of AddHistory, both with the error
returned, a run of launchToken with its arguments, its events and its error,
and a go statement. -/
inductive Action where
  | hook (t : Token) (err : Option GoError)
  | addHistory (he : HistoryEntry) (err : Option GoError)
  | dispatch (token : Token) (plsc : PlaylistController) (events : List Event)
      (err : Option GoError)
  | spawn (task : Task)
  deriving DecidableEq, Repr

/-- The case that the select statement of the event loop takes in one
iteration: a playlist update from plq (none is the null update), a token from
itq, or the Done channel of the context, which is only ready once the context
is cancelled. -/
inductive Selected where
  | playlist (pls : Option Playlist)
  | token (t : Token)
  | done
  deriving DecidableEq, Repr

/-- Where control goes after the body of the loop: to the next iteration or out
of the loop. -/
inductive Control where
  | iterate
  | leave
  deriving DecidableEq, Repr

/-- The result of one iteration of the event loop. -/
structure StepOutcome (ω : Type) where
  state : State
  world : ω
  actions : List Action
  control : Control

/-- The body of the closure launchPlaylistMedia, run as a task on the state w
of the collaborators. -/
def launchPlaylistMedia {ω : Type} (c : Collab ω) (plq : Nat) (pls : Playlist)
    (activePlaylist : Option Playlist) (w : ω) : List Action × ω :=
  let t : Token :=
    { Type_ := "", UID := "", Text := pls.Current.Path, Data := "", ScanTime := c.Now w,
      FromAPI := false, Source := SourcePlaylist }
  let plsc : PlaylistController := { Active := activePlaylist, Queue := plq }
  let r := launchToken c.getMapping c.handler t plsc w
  let he : HistoryEntry :=
    { DBID := 0, Time := t.ScanTime, Type_ := t.Type_, UID := t.UID, Text := t.Text,
      Data := t.Data, Success := r.1.isNone }
  let a := c.AddHistory r.2.2 he
  ([.dispatch t plsc r.2.1 r.1, .addHistory he a.1], a.2)

/-- The body of the function that launches a scanned token, run as a task: st
is the shared state at the time the task runs. -/
def launchScanned {ω : Type} (c : Collab ω) (plq : Nat) (t : Token) (he : HistoryEntry)
    (st : State) (w : ω) : List Action × ω :=
  let plsc : PlaylistController := { Active := st.GetActivePlaylist, Queue := plq }
  let r := launchToken c.getMapping c.handler t plsc w
  let he1 : HistoryEntry := { he with Success := r.1.isNone }
  let a := c.AddHistory r.2.2 he1
  ([.dispatch t plsc r.2.1 r.1, .addHistory he1 a.1], a.2)

/-- A started task run to its end. -/
def runTask {ω : Type} (c : Collab ω) (plq : Nat) (st : State) (w : ω) :
    Task → List Action × ω
  | .launchPlaylistMedia pls activePlaylist => launchPlaylistMedia c plq pls activePlaylist w
  | .launchScanned t he => launchScanned c plq t he st w

/-- One iteration of the loop of processTokenQueue, for the case that the
select statement takes. Every case ends in the next iteration: by continue, by
reaching the end of the case, or, in the Done case, by a break, which leaves
the select statement and not the enclosing for statement. The playlist queue
plq is only used by the started tasks and is an argument of runTask. -/
def loopStep {ω : Type} (c : Collab ω) (sel : Selected) (st : State) (w : ω) :
    StepOutcome ω :=
  match sel with
  | .playlist pls =>
    let activePlaylist := st.GetActivePlaylist
    match pls with
    | none =>
      { state := st.SetActivePlaylist none, world := w, actions := [], control := .iterate }
    | some p =>
      match activePlaylist with
      | none =>
        if p.Playing then
          { state := st.SetActivePlaylist (some p), world := w,
            actions := [.spawn (.launchPlaylistMedia p activePlaylist)], control := .iterate }
        else
          { state := st.SetActivePlaylist (some p), world := w, actions := [],
            control := .iterate }
      | some a =>
        if p.Current = a.Current ∧ p.Playing = a.Playing then
          { state := st, world := w, actions := [], control := .iterate }
        else if p.Playing then
          { state := st.SetActivePlaylist (some p), world := w,
            actions := [.spawn (.launchPlaylistMedia p activePlaylist)], control := .iterate }
        else
          { state := st.SetActivePlaylist (some p), world := w, actions := [],
            control := .iterate }
  | .token t =>
    if t.ScanTime.IsZero then
      { state := st, world := w, actions := [], control := .iterate }
    else
      let h := c.AfterScanHook w t
      let he : HistoryEntry :=
        { DBID := 0, Time := t.ScanTime, Type_ := t.Type_, UID := t.UID, Text := t.Text,
          Data := t.Data, Success := false }
      if !st.RunZapScriptEnabled then
        let a := c.AddHistory h.2 he
        { state := st, world := a.2, actions := [.hook t h.1, .addHistory he a.1],
          control := .iterate }
      else
        { state := st, world := h.2, actions := [.hook t h.1, .spawn (.launchScanned t he)],
          control := .iterate }
  | .done =>
    { state := st, world := w, actions := [], control := .iterate }

/-- The loop of processTokenQueue over the cases that the select statement
takes, in order; the loop of the source has no end of its own, the list is the
part of its run that is looked at. Returns the state, the state of the
collaborators and the actions of the loop itself; the started tasks run on
their own. -/
def processTokenQueue {ω : Type} (c : Collab ω) :
    List Selected → State → ω → State × ω × List Action
  | [], st, w => (st, w, [])
  | sel :: rest, st, w =>
    match (loopStep c sel st w).control with
    | .leave =>
      ((loopStep c sel st w).state, (loopStep c sel st w).world, (loopStep c sel st w).actions)
    | .iterate =>
      let next := processTokenQueue c rest (loopStep c sel st w).state (loopStep c sel st w).world
      (next.1, next.2.1, (loopStep c sel st w).actions ++ next.2.2)

/-- The history entries handed to AddHistory in a list of actions, in order. -/
def historyWrites : List Action → List HistoryEntry
  | [] => []
  | .addHistory he _ :: as => he :: historyWrites as
  | _ :: as => historyWrites as

/-- The tasks started in a list of actions, in order. -/
def spawned : List Action → List Task
  | [] => []
  | .spawn task :: as => task :: spawned as
  | _ :: as => spawned as

/-- The tokens handed to launchToken in a list of actions, in order. -/
def dispatched : List Action → List Token
  | [] => []
  | .dispatch token _ _ _ :: as => token :: dispatched as
  | _ :: as => dispatched as

/-- The tokens handed to the after-scan hook in a list of actions, in order. -/
def hooked : List Action → List Token
  | [] => []
  | .hook t _ :: as => t :: hooked as
  | _ :: as => hooked as

/-- Sample collaborators: the after-scan hook always fails, AddHistory always
succeeds, the clock shows one more than the number of calls made so far, no
mapping is found and the handler fails on the sub-command B. -/
def sampleCollab : Collab Nat :=
  { AfterScanHook := fun w _ => (some "hook failed", w + 1),
    AddHistory := fun w _ => (none, w + 1),
    Now := fun w => (w : Int) + 1,
    Now_nonzero := fun w => by
      have h : ((w : Int) + 1 == 0) = false := by
        rw [beq_eq_false_iff_ne]
        omega
      exact h,
    getMapping := noMapping,
    handler := failOnB }

/-- A sample playlist of two entries, playing, with the cursor on the first. -/
def samplePlaylist : Playlist :=
  { Items := [{ Path := "nes/a.nes" }, { Path := "nes/b.nes" }], Index := 0, Playing := true }

/-- The history entry that the event loop prepares for a token, with the given
success flag. -/
def historyEntryOf (t : Token) (success : Bool) : HistoryEntry :=
  { DBID := 0, Time := t.ScanTime, Type_ := t.Type_, UID := t.UID, Text := t.Text,
    Data := t.Data, Success := success }

/-- The token that launchPlaylistMedia builds for a playlist at the given time
of the clock. -/
def playlistToken (pls : Playlist) (now : Time) : Token :=
  { Type_ := "", UID := "", Text := pls.Current.Path, Data := "", ScanTime := now,
    FromAPI := false, Source := SourcePlaylist }

/-! ## Spec-side notions for the effects of launchToken and the key presses -/

/-- The playlist that launchToken keeps after a run of sub-command results,
starting from the playlist start: each result that reports playlist-changed
replaces it by the playlist of that result, nil or not; other results leave
it. -/
def keptPlaylist (start : Option Playlist) (results : List CmdResult) : Option Playlist :=
  results.foldl (fun p r => if r.PlaylistChanged then r.Playlist else p) start

/-- The last non-nil playlist among a run of sub-command results, or the
playlist start when there is none: the fold in the words of the
specification. -/
def lastNonNilPlaylist (start : Option Playlist) (results : List CmdResult) : Option Playlist :=
  results.foldl (fun p r => if r.Playlist.isSome then r.Playlist else p) start

/-- The playlist controllers handed to launchToken in a list of actions, in
order. -/
def dispatchedControllers : List Action → List PlaylistController
  | [] => []
  | .dispatch _ plsc _ _ :: as => plsc :: dispatchedControllers as
  | _ :: as => dispatchedControllers as

/-- The errors that a press method returns when every name of the list is
pressed in order, from the given state of the platform on. -/
def pressOutcomes {σ : Type} (press : σ → String → Option GoError × σ) :
    List String → σ → List (Option GoError)
  | [], _ => []
  | name :: rest, s => (press s name).1 :: pressOutcomes press rest (press s name).2

/-- The number of presses at the head of a list of outcomes that succeeded. -/
def leadingSuccesses (outs : List (Option GoError)) : Nat :=
  (outs.takeWhile (fun o => o.isNone)).length

/-- A sample handler whose launch fails: it reports a media change and returns
an error. -/
def failedLaunchHandler : SubHandler Nat := fun w _ _ _ _ _ =>
  (({ MediaChanged := true, PlaylistChanged := false, Playlist := none }, some "launch failed"),
    w + 1)

/-- A sample handler for playlists: the sub-command A loads the sample playlist,
the sub-command B reports playlist-changed with a nil playlist, every other
sub-command has no effect. -/
def playlistHandler : SubHandler Nat := fun w _ _ cmd _ _ =>
  if cmd = "A" then
    (({ MediaChanged := false, PlaylistChanged := true, Playlist := some samplePlaylist }, none),
      w + 1)
  else if cmd = "B" then
    (({ MediaChanged := false, PlaylistChanged := true, Playlist := none }, none), w + 1)
  else ((CmdResult.zero, none), w + 1)

/-- A sample platform on which the press of the key b fails. -/
def failOnKeyB : Platform Nat :=
  { KeyboardInput := fun n _ => (none, n + 1),
    KeyboardPress := fun n name => (if name = "b" then some "press failed" else none, n + 1),
    GamepadPress := fun n name => (if name = "b" then some "press failed" else none, n + 1) }

/-- The third call of the sample playlist handler in the script A, B, C of the
sample token. -/
def thirdCall : Invocation :=
  { plsc := { Active := none, Queue := 0 }, token := sampleToken, cmd := "C", total := 3,
    index := 2, result := CmdResult.zero, err := none }

/-! ## pkg/zapscript/online.go: checkLink and installRunMedia

The library functions that the code calls (JSON decoding and encoding, the
lower-casing of strings.ToLower, filepath.Base and filepath.Join), the
platform, the system definitions and the operations on the network and the
file system are collaborators, gathered in one record; the operations with an
effect share an internal state of type ω and are recorded in a trace. The
deferred Close calls, whose errors are only logged, are left out. -/

/-- The constant MimeZaparooZapLink. -/
def MimeZaparooZapLink : String := "application/vnd.zaparoo.link"

/-- The variable AcceptedMimeTypes. -/
def AcceptedMimeTypes : List String := [MimeZaparooZapLink]

/-- The variable MediaSafeList. -/
def MediaSafeList : List String :=
  ["https://cdn.zaparoo.com", "https://secure.cdn.zaparoo.com"]

/-- The constant ZapLinkActionZapScript. -/
def ZapLinkActionZapScript : String := "zapscript"

/-- The constant ZapLinkActionMedia. -/
def ZapLinkActionMedia : String := "media"

/-- The record ZapLinkAction; the raw JSON of the parameters is a string. -/
structure ZapLinkAction where
  Method : String
  Params : String
  deriving DecidableEq, Repr

/-- The record ZapLink. -/
structure ZapLink where
  Version : Int
  Actions : List ZapLinkAction
  deriving DecidableEq, Repr

/-- The record ZapScriptParams. -/
structure ZapScriptParams where
  ZapScript : String
  deriving DecidableEq, Repr

/-- The record MediaParams; Url is a pointer, none when it is nil. -/
structure MediaParams where
  Name : String
  System : String
  Url : Option String
  deriving DecidableEq, Repr

/-- The library function strings.HasPrefix. -/
def stringsHasPrefix (s pre : String) : Bool :=
  pre.toList.isPrefixOf s.toList

/-- Whether the runes sub occur in the runes s as one contiguous run. -/
def containsRunes : List Char → List Char → Bool
  | [], sub => sub.isEmpty
  | c :: cs, sub => sub.isPrefixOf (c :: cs) || containsRunes cs sub

/-- The library function strings.Contains. -/
def stringsContains (s sub : String) : Bool :=
  containsRunes s.toList sub.toList

/-- The function isLink. -/
def isLink (s : String) : Bool :=
  if stringsHasPrefix s "http://" || stringsHasPrefix s "https://" then true else false

/-- What the code reads from an HTTP response: the status code, the value of
the Content-Type header (empty when absent), the body, and the error of reading
the body, if any. -/
structure HttpResponse where
  StatusCode : Int
  ContentType : String
  Body : String
  BodyErr : Option GoError
  deriving DecidableEq, Repr

/-- The record platforms.Launcher, with the fields that installRunMedia reads;
Folders is a slice, none when it is nil. -/
structure Launcher where
  SystemId : String
  Folders : Option (List String)
  deriving DecidableEq, Repr

/-- The record systemdefs.System, with the field that installRunMedia reads. -/
structure System where
  Id : String
  deriving DecidableEq, Repr

/-- The record widgets.LoaderArgs. -/
structure LoaderArgs where
  Text : String
  Complete : String
  deriving DecidableEq, Repr

/-- The record models.RunParams, with the field that the code sets; Text is a
pointer. -/
structure RunParams where
  Text : Option String
  deriving DecidableEq, Repr

/-- The result of os.Stat as the code tells it apart: no error, an error for
which os.IsNotExist holds, or another error. -/
inductive StatResult where
  | found
  | notExist
  | failed (e : GoError)
  deriving DecidableEq, Repr

/-- A call with an effect made by checkLink or installRunMedia. -/
inductive SysCall where
  | httpDo (url accept : String)
  | stat (path : String)
  | writeFile (path data : String)
  | localClient (method params : String)
  | httpGet (url : String)
  | create (path : String)
  | copy (path body : String)
  | remove (path : String)
  deriving DecidableEq, Repr

/-- The collaborators of checkLink and installRunMedia. -/
structure LinkEnv (ω : Type) where
  ToLower : String → String
  unmarshalZapLink : String → ZapLink × Option GoError
  unmarshalZapScriptParams : String → ZapScriptParams × Option GoError
  unmarshalMediaParams : String → MediaParams × Option GoError
  marshalLoaderArgs : LoaderArgs → String × Option GoError
  marshalRunParams : RunParams → String × Option GoError
  Base : String → String
  Join : List String → String
  platformId : String
  Launchers : List Launcher
  TempDir : String
  GetSystem : String → System × Option GoError
  NewRequest : String → Option GoError
  Do : ω → String → String → (HttpResponse × Option GoError) × ω
  Stat : ω → String → StatResult × ω
  WriteFile : ω → String → String → Option GoError × ω
  LocalClient : ω → String → String → (String × Option GoError) × ω
  Get : ω → String → (HttpResponse × Option GoError) × ω
  Create : ω → String → Option GoError × ω
  Copy : ω → String → String → Option GoError × ω
  Remove : ω → String → Option GoError × ω

/-- What checkLink and installRunMedia return and leave behind: the string and
the error returned, the calls with an effect in order, and the next state of
the collaborators. -/
structure LinkOutcome (ω : Type) where
  value : String
  err : Option GoError
  calls : List SysCall
  world : ω

/-- A return with the empty string and an error. -/
def LinkOutcome.fail {ω : Type} (msg : GoError) (calls : List SysCall) (w : ω) : LinkOutcome ω :=
  { value := "", err := some msg, calls := calls, world := w }

/-- The part of installRunMedia from the computation of the file name on: the
check for an existing file, the loading dialog, the download and the removal
of the dialog. -/
def downloadMedia {ω : Type} (env : LinkEnv ω) (mp : MediaParams) (url folder : String)
    (w : ω) : LinkOutcome ω :=
  let name := env.Base url
  let root := "/media/fat/games"
  let path := env.Join [root, folder, name]
  let st := env.Stat w path
  let c1 := [SysCall.stat path]
  match st.1 with
  | .found => { value := path, err := none, calls := c1, world := st.2 }
  | .failed e => .fail ("error checking file: " ++ e) c1 st.2
  | .notExist =>
    let argsPath := env.Join [env.TempDir, "loader.json"]
    let completePath := env.Join [env.TempDir, ".loader-complete"]
    let args : LoaderArgs :=
      { Text := "Downloading " ++ mp.Name ++ "...", Complete := completePath }
    let argsJson := env.marshalLoaderArgs args
    match argsJson.2 with
    | some e => .fail ("error marshalling loader args: " ++ e) c1 st.2
    | none =>
      let wf := env.WriteFile st.2 argsPath argsJson.1
      let c2 := c1 ++ [SysCall.writeFile argsPath argsJson.1]
      match wf.1 with
      | some e => .fail ("error writing loader args: " ++ e) c2 wf.2
      | none =>
        let text := "**mister.script:zaparoo.sh -show-loader " ++ argsPath
        let ps := env.marshalRunParams { Text := some text }
        let lc := env.LocalClient wf.2 "run" ps.1
        let c3 := c2 ++ [SysCall.localClient "run" ps.1]
        let resp := env.Get lc.2 url
        let c4 := c3 ++ [SysCall.httpGet url]
        match resp.1.2 with
        | some e => .fail ("error getting url: " ++ e) c4 resp.2
        | none =>
          if resp.1.1.StatusCode != 200 then
            .fail ("invalid status code: " ++ toString resp.1.1.StatusCode) c4 resp.2
          else
            let file := env.Create resp.2 path
            let c5 := c4 ++ [SysCall.create path]
            match file.1 with
            | some e => .fail ("error creating file: " ++ e) c5 file.2
            | none =>
              let cp := env.Copy file.2 path resp.1.1.Body
              let c6 := c5 ++ [SysCall.copy path resp.1.1.Body]
              match cp.1 with
              | some e => .fail ("error copying file: " ++ e) c6 cp.2
              | none =>
                let rm := env.Remove cp.2 argsPath
                let c7 := c6 ++ [SysCall.remove argsPath]
                match rm.1 with
                | some e => .fail ("error removing loader args: " ++ e) c7 rm.2
                | none =>
                  let done := env.WriteFile rm.2 completePath ""
                  let c8 := c7 ++ [SysCall.writeFile completePath ""]
                  match done.1 with
                  | some e => .fail ("error writing loader complete: " ++ e) c8 done.2
                  | none => { value := path, err := none, calls := c8, world := done.2 }

/-- The function installRunMedia. The result none is the runtime failure of the
index expression launcher.Folders[0] on a slice that is not nil and has no
element. -/
def installRunMedia {ω : Type} (env : LinkEnv ω) (action : ZapLinkAction) (w : ω) :
    Option (LinkOutcome ω) :=
  if env.platformId != "mister" then
    some (.fail "media install only supported for mister" [] w)
  else
    let mp := env.unmarshalMediaParams action.Params
    match mp.2 with
    | some e => some (.fail ("error unmarshalling media params: " ++ e) [] w)
    | none =>
      match mp.1.Url with
      | none => some (.fail "media download url is empty" [] w)
      | some url =>
        let isSafe := MediaSafeList.any (fun safe => stringsHasPrefix url safe)
        if !isSafe then
          some (.fail "media download not in safe list" [] w)
        else
          let system := env.GetSystem mp.1.System
          match system.2 with
          | some e => some (.fail ("error getting system: " ++ e) [] w)
          | none =>
            let launchers := env.Launchers.filter (fun l => l.SystemId == system.1.Id)
            match launchers with
            | [] => some (.fail ("no launchers for system: " ++ system.1.Id) [] w)
            | launcher :: _ =>
              match launcher.Folders with
              | none => some (.fail "no folders for launcher" [] w)
              | some [] => none
              | some (folder :: _) => some (downloadMedia env mp.1 url folder w)

/-- The last part of checkLink: the switch on the method of the first action,
run on the state of the collaborators after the fetch. -/
def runFirstAction {ω : Type} (env : LinkEnv ω) (action : ZapLinkAction) (w : ω) :
    Option (LinkOutcome ω) :=
  let method := env.ToLower action.Method
  if method = ZapLinkActionZapScript then
    let zsp := env.unmarshalZapScriptParams action.Params
    match zsp.2 with
    | some e => some (.fail ("error unmarshalling zap script params: " ++ e) [] w)
    | none => some { value := zsp.1.ZapScript, err := none, calls := [], world := w }
  else if method = ZapLinkActionMedia then
    installRunMedia env action w
  else
    some (.fail ("unknown action: " ++ action.Method) [] w)

/-- The function checkLink. -/
def checkLink {ω : Type} (env : LinkEnv ω) (value : String) (w : ω) : Option (LinkOutcome ω) :=
  if !isLink value then
    some { value := "", err := none, calls := [], world := w }
  else
    match env.NewRequest value with
    | some e => some (.fail e [] w)
    | none =>
      let accept := String.intercalate ", " AcceptedMimeTypes
      let r := env.Do w value accept
      let c1 := [SysCall.httpDo value accept]
      match r.1.2 with
      | some e => some (.fail e c1 r.2)
      | none =>
        let resp := r.1.1
        if resp.StatusCode != 200 then
          some (.fail "invalid status code" c1 r.2)
        else
          let contentType := resp.ContentType
          if contentType = "" then
            some (.fail "content type is empty" c1 r.2)
          else
            let content :=
              match AcceptedMimeTypes.find? (fun mimeType => stringsContains contentType mimeType)
              with
              | some mimeType => mimeType
              | none => ""
            if content = "" then
              some (.fail "no valid content type" c1 r.2)
            else
              match resp.BodyErr with
              | some e => some (.fail ("error reading body: " ++ e) c1 r.2)
              | none =>
                if content != MimeZaparooZapLink then
                  some (.fail "invalid content type" c1 r.2)
                else
                  let zl := env.unmarshalZapLink resp.Body
                  match zl.2 with
                  | some e => some (.fail ("error unmarshalling body: " ++ e) c1 r.2)
                  | none =>
                    match zl.1.Actions with
                    | [] => some (.fail "no actions in zap link" c1 r.2)
                    | action :: _ =>
                      (runFirstAction env action r.2).map
                        (fun out => { out with calls := c1 ++ out.calls })

/-- The value of the Accept header that checkLink sends. -/
def acceptHeader : String := String.intercalate ", " AcceptedMimeTypes

/-- The fetch of a link succeeds with a well-formed envelope: the value is a
link, the request is made and answered with the status 200 and a content type
that contains the zap link type, and the body is read and decoded without
error to the envelope zl. -/
def fetchesEnvelope {ω : Type} (env : LinkEnv ω) (value : String) (w : ω) (zl : ZapLink) :
    Prop :=
  isLink value = true ∧ env.NewRequest value = none ∧
  (env.Do w value acceptHeader).1.2 = none ∧
  (env.Do w value acceptHeader).1.1.StatusCode = 200 ∧
  stringsContains (env.Do w value acceptHeader).1.1.ContentType MimeZaparooZapLink = true ∧
  (env.Do w value acceptHeader).1.1.BodyErr = none ∧
  env.unmarshalZapLink (env.Do w value acceptHeader).1.1.Body = (zl, none)

/-- The runes of a URL before the separator of scheme and authority, and the
runes after it; none when the URL has no such separator. -/
def splitScheme : List Char → List Char → Option (List Char × List Char)
  | _, [] => none
  | acc, c :: cs =>
    if [':', '/', '/'].isPrefixOf (c :: cs) then some (acc, cs.drop 2)
    else splitScheme (acc ++ [c]) cs

/-- The runes of the authority at the head of the rest of a URL: up to the
first slash, question mark or hash. -/
def takeAuthority : List Char → List Char
  | [] => []
  | c :: cs => if c = '/' ∨ c = '?' ∨ c = '#' then [] else c :: takeAuthority cs

/-- The origin of a URL in the words of the specification, scheme and host: the
scheme, the separator and the authority, which is the host for a URL without
user information and port; none when the URL has no scheme. -/
def urlOrigin (url : String) : Option String :=
  (splitScheme [] url.toList).map
    (fun p => String.mk (p.1 ++ [':', '/', '/'] ++ takeAuthority p.2))

/-- The last segment of a path of runes, cur being the segment read so far. -/
def lastSegment : List Char → List Char → List Char
  | cur, [] => cur
  | cur, c :: cs => if c = '/' then lastSegment [] cs else lastSegment (cur ++ [c]) cs

/-- Sample collaborators for the links: the platform is mister with the given
launchers, every fetch is answered with the given response, every body decodes
to the given envelope, the parameters of a script action are the script text,
those of a media action decode to the given media parameters, no file exists,
every download is answered with the status 200 and the body ROM, and no
operation fails; the state counts the operations with an effect. -/
def sampleLinkEnv (resp : HttpResponse) (zl : ZapLink) (mp : MediaParams)
    (launchers : List Launcher) : LinkEnv Nat :=
  { ToLower := fun s => String.mk (s.toList.map Char.toLower),
    unmarshalZapLink := fun _ => (zl, none),
    unmarshalZapScriptParams := fun p => ({ ZapScript := p }, none),
    unmarshalMediaParams := fun _ => (mp, none),
    marshalLoaderArgs := fun a => (a.Text, none),
    marshalRunParams := fun p => (p.Text.getD "", none),
    Base := fun s => String.mk (lastSegment [] s.toList),
    Join := fun parts => String.intercalate "/" parts,
    platformId := "mister",
    Launchers := launchers,
    TempDir := "/tmp",
    GetSystem := fun id => ({ Id := id }, none),
    NewRequest := fun _ => none,
    Do := fun w _ _ => ((resp, none), w + 1),
    Stat := fun w _ => (.notExist, w + 1),
    WriteFile := fun w _ _ => (none, w + 1),
    LocalClient := fun w _ _ => (("", none), w + 1),
    Get := fun w _ => (({ StatusCode := 200, ContentType := "", Body := "ROM",
                          BodyErr := none }, none), w + 1),
    Create := fun w _ => (none, w + 1),
    Copy := fun w _ _ => (none, w + 1),
    Remove := fun w _ => (none, w + 1) }

/-- A sample response with the status 200 and the zap link content type. -/
def okResponse : HttpResponse :=
  { StatusCode := 200, ContentType := "application/vnd.zaparoo.link; charset=utf-8",
    Body := "body", BodyErr := none }

/-- A sample envelope whose first action is a script and whose second is of an
unknown kind. -/
def scriptEnvelope : ZapLink :=
  { Version := 1,
    Actions := [{ Method := "ZapScript", Params := "**launch.system:nes" },
                { Method := "other", Params := "" }] }

/-- A sample envelope with the same first action and no other. -/
def scriptEnvelopeShort : ZapLink :=
  { Version := 1, Actions := [{ Method := "ZapScript", Params := "**launch.system:nes" }] }

/-- A sample envelope with one media action. -/
def mediaEnvelope : ZapLink :=
  { Version := 1, Actions := [{ Method := "media", Params := "params" }] }

/-- Sample media parameters whose URL starts with the first entry of the safe
list and has another host. -/
def lookalikeMedia : MediaParams :=
  { Name := "game", System := "nes",
    Url := some "https://cdn.zaparoo.com.evil.example/game.rom" }

/-- Sample media parameters with a URL on the first host of the safe list. -/
def cdnMedia : MediaParams :=
  { Name := "game", System := "nes", Url := some "https://cdn.zaparoo.com/nes/game.rom" }

/-- A sample launcher of the system nes with one folder. -/
def nesLauncher : Launcher := { SystemId := "nes", Folders := some ["NES"] }

/-- A sample launcher of the system nes whose folder list is empty and not
nil. -/
def emptyFoldersLauncher : Launcher := { SystemId := "nes", Folders := some [] }

/-! ## pkg/cli/cli.go: Flags.Post

The local API client (LocalClient and WaitNotification, which talk to the
running service over a websocket), the configuration UI and the JSON encoding
are collaborators with an internal state of type ω; os.Exit ends the run with
its code. The goroutines that wait for an interrupt signal are left out. -/

/-- The values of the flags that SetupFlags defines, after parsing. -/
structure Flags where
  Write : String
  Read : Bool
  Run : String
  Launch : String
  Api : String
  Version : Bool
  Config : Bool
  Reload : Bool
  deriving DecidableEq, Repr

/-- The flags as SetupFlags declares them, each with its default value. -/
def Flags.defaults : Flags :=
  { Write := "", Read := false, Run := "", Launch := "", Api := "", Version := false,
    Config := false, Reload := false }

/-- A call of Flags.Post on a collaborator, or a line it prints. -/
inductive CliCall where
  | localClient (method params : String)
  | configUi
  | waitNotification (name : String)
  | stderr (msg : String)
  | stdout (msg : String)
  deriving DecidableEq, Repr

/-- The collaborators of Flags.Post and the names of the API methods, which are
constants of the package models. -/
structure CliEnv (ω : Type) where
  MethodSettingsUpdate : String
  MethodReadersWrite : String
  MethodRun : String
  MethodSettingsReload : String
  NotificationTokensAdded : String
  marshalReaderWriteParams : String → String × Option GoError
  marshalRunParams : RunParams → String × Option GoError
  LocalClient : ω → String → String → (String × Option GoError) × ω
  ConfigUi : ω → Option GoError × ω
  WaitNotification : ω → String → (String × Option GoError) × ω

/-- A part of a run of the command line: the calls made, the exit code when
os.Exit was called, and the next state of the collaborators. -/
structure CliOutcome (ω : Type) where
  calls : List CliCall
  exit : Option Int
  world : ω

/-- Sequencing: the next part runs only when the part before did not exit. -/
def CliOutcome.andThen {ω : Type} (o : CliOutcome ω) (next : ω → CliOutcome ω) : CliOutcome ω :=
  match o.exit with
  | some _ => o
  | none =>
    { calls := o.calls ++ (next o.world).calls, exit := (next o.world).exit,
      world := (next o.world).world }

/-- The function client.ZapScriptWrapper up to its return: it switches the run
flag of the service off and exits with code 1 when that fails. -/
def zapScriptWrapper {ω : Type} (env : CliEnv ω) (w : ω) : CliOutcome ω :=
  let r := env.LocalClient w env.MethodSettingsUpdate "\x7b\"runZapScript\":false\x7d"
  match r.1.2 with
  | some e =>
    { calls := [.localClient env.MethodSettingsUpdate "\x7b\"runZapScript\":false\x7d",
                .stderr ("Error disabling run: " ++ e ++ "\n")],
      exit := some 1, world := r.2 }
  | none =>
    { calls := [.localClient env.MethodSettingsUpdate "\x7b\"runZapScript\":false\x7d"],
      exit := none, world := r.2 }

/-- The function that client.ZapScriptWrapper returns: it switches the run flag
of the service on again and exits with code 1 when that fails. -/
def enableRun {ω : Type} (env : CliEnv ω) (w : ω) : CliOutcome ω :=
  let r := env.LocalClient w env.MethodSettingsUpdate "\x7b\"runZapScript\":true\x7d"
  match r.1.2 with
  | some e =>
    { calls := [.localClient env.MethodSettingsUpdate "\x7b\"runZapScript\":true\x7d",
                .stderr ("Error enabling run: " ++ e ++ "\n")],
      exit := some 1, world := r.2 }
  | none =>
    { calls := [.localClient env.MethodSettingsUpdate "\x7b\"runZapScript\":true\x7d"],
      exit := none, world := r.2 }

/-- The call os.Exit(code). -/
def exitWith {ω : Type} (code : Int) (w : ω) : CliOutcome ω :=
  { calls := [], exit := some code, world := w }

/-- The library call strings.SplitN(s, ":", 2) on the runes of s: the part
before the first colon and, when there is a colon, the part after it. -/
def splitColon : List Char → List Char → List Char × Option (List Char)
  | cur, [] => (cur, none)
  | cur, c :: cs => if c = ':' then (cur, some cs) else splitColon (cur ++ [c]) cs

/-- The method Flags.Post. -/
def Flags.Post {ω : Type} (env : CliEnv ω) (f : Flags) (w : ω) : CliOutcome ω :=
  let config : CliOutcome ω :=
    if f.Config then
      (zapScriptWrapper env w).andThen fun w1 =>
        match (env.ConfigUi w1).1 with
        | some e =>
          { calls := [.configUi, .stderr ("Error starting config UI: " ++ e ++ "\n")],
            exit := some 1, world := (env.ConfigUi w1).2 }
        | none =>
          ({ calls := [.configUi], exit := none, world := (env.ConfigUi w1).2 } :
            CliOutcome ω).andThen fun w2 => (enableRun env w2).andThen (exitWith 0)
    else
      { calls := [], exit := none, world := w }
  config.andThen fun w0 =>
    if f.Write ≠ "" then
      let data := env.marshalReaderWriteParams f.Write
      match data.2 with
      | some e =>
        { calls := [.stderr ("Error encoding params: " ++ e ++ "\n")], exit := some 1,
          world := w0 }
      | none =>
        (zapScriptWrapper env w0).andThen fun w1 =>
          let r := env.LocalClient w1 env.MethodReadersWrite data.1
          match r.1.2 with
          | some e =>
            ({ calls := [.localClient env.MethodReadersWrite data.1,
                         .stderr ("Error writing tag: " ++ e ++ "\n")],
               exit := none, world := r.2 } : CliOutcome ω).andThen fun w2 =>
              (enableRun env w2).andThen (exitWith 1)
          | none =>
            ({ calls := [.localClient env.MethodReadersWrite data.1,
                         .stderr ("Tag: " ++ f.Write ++ " written successfully\n")],
               exit := none, world := r.2 } : CliOutcome ω).andThen fun w2 =>
              (enableRun env w2).andThen (exitWith 0)
    else if f.Read then
      (zapScriptWrapper env w0).andThen fun w1 =>
        let r := env.WaitNotification w1 env.NotificationTokensAdded
        match r.1.2 with
        | some e =>
          ({ calls := [.waitNotification env.NotificationTokensAdded,
                       .stderr ("Error waiting for notification: " ++ e ++ "\n")],
             exit := none, world := r.2 } : CliOutcome ω).andThen fun w2 =>
            (enableRun env w2).andThen (exitWith 1)
        | none =>
          ({ calls := [.waitNotification env.NotificationTokensAdded], exit := none,
             world := r.2 } : CliOutcome ω).andThen fun w2 =>
            (enableRun env w2).andThen fun w3 =>
              { calls := [.stdout (r.1.1 ++ "\n")], exit := some 0, world := w3 }
    else if f.Run ≠ "" ∨ f.Launch ≠ "" then
      let data := env.marshalRunParams { Text := some f.Run }
      match data.2 with
      | some e =>
        { calls := [.stderr ("Error encoding params: " ++ e ++ "\n")], exit := some 1,
          world := w0 }
      | none =>
        let r := env.LocalClient w0 env.MethodRun data.1
        match r.1.2 with
        | some e =>
          { calls := [.localClient env.MethodRun data.1,
                      .stderr ("Error running: " ++ e ++ "\n")],
            exit := some 1, world := r.2 }
        | none =>
          { calls := [.localClient env.MethodRun data.1], exit := some 0, world := r.2 }
    else if f.Api ≠ "" then
      let ps := splitColon [] f.Api.toList
      let method := String.mk ps.1
      let params := match ps.2 with
        | some rest => String.mk rest
        | none => ""
      let r := env.LocalClient w0 method params
      match r.1.2 with
      | some e =>
        { calls := [.localClient method params, .stderr ("Error calling API: " ++ e ++ "\n")],
          exit := some 1, world := r.2 }
      | none =>
        { calls := [.localClient method params, .stdout (r.1.1 ++ "\n")], exit := some 0,
          world := r.2 }
    else if f.Reload then
      let r := env.LocalClient w0 env.MethodSettingsReload ""
      match r.1.2 with
      | some e =>
        { calls := [.localClient env.MethodSettingsReload "",
                    .stderr ("Error reloading: " ++ e ++ "\n")],
          exit := some 1, world := r.2 }
      | none =>
        { calls := [.localClient env.MethodSettingsReload ""], exit := some 0, world := r.2 }
    else
      { calls := [], exit := none, world := w0 }

/-- Sample collaborators of the command line: every call of the API succeeds
with an empty answer, the encoding of run parameters shows the text, and the
state counts the calls. -/
def sampleCliEnv : CliEnv Nat :=
  { MethodSettingsUpdate := "settings.update",
    MethodReadersWrite := "readers.write",
    MethodRun := "run",
    MethodSettingsReload := "settings.reload",
    NotificationTokensAdded := "tokens.added",
    marshalReaderWriteParams := fun text => ("text=" ++ text, none),
    marshalRunParams := fun p => ("text=" ++ p.Text.getD "null", none),
    LocalClient := fun w _ _ => (("", none), w + 1),
    ConfigUi := fun w => (none, w + 1),
    WaitNotification := fun w _ => (("", none), w + 1) }

end Zaparoo

/-! # Properties -/

namespace Zaparoo

/-! ## readKeys -/

/-- C1: on the input a, b, brace name ENTER, backslash, opening brace, c the
code returns the four symbols a, b, ENTER, c: the escaped opening brace is
appended to the pending name and is not emitted as a symbol, so the result is
not the five-symbol list of the specification. -/
theorem readKeys_escaped_brace_not_emitted :
    readKeys "ab\x7bENTER\x7d\\\x7bc" = (["a", "b", "ENTER", "c"], none) ∧
    readKeys "ab\x7bENTER\x7d\\\x7bc" ≠ (["a", "b", "ENTER", "\x7b", "c"], none) := by
  decide

theorem readKeysLoop_plain (cs rest : List Char) (names : List String) (name : String)
    (h : ∀ c ∈ cs, isSpecial c = false) :
    readKeysLoop (cs ++ rest) names false false name =
      readKeysLoop rest (names ++ cs.map String.singleton) false false name := by
  induction cs generalizing names with
  | nil => simp
  | cons c cs ih =>
    have hc : isSpecial c = false := h c (List.mem_cons_self _ _)
    simp only [isSpecial, Bool.or_eq_false_iff, decide_eq_false_iff_not] at hc
    obtain ⟨⟨h1, h2⟩, h3⟩ := hc
    have ih1 := ih (names ++ [String.singleton c]) (fun d hd => h d (List.mem_cons_of_mem _ hd))
    simp [readKeysLoop, h1, h2, h3, ih1]

theorem readKeysLoop_inside (cs rest : List Char) (names : List String) (name : String)
    (h : ∀ c ∈ cs, isSpecial c = false) :
    readKeysLoop (cs ++ rest) names false true name =
      readKeysLoop rest names false true (name ++ String.mk cs) := by
  induction cs generalizing name with
  | nil => simp [show String.mk [] = "" from rfl]
  | cons c cs ih =>
    have hc : isSpecial c = false := h c (List.mem_cons_self _ _)
    simp only [isSpecial, Bool.or_eq_false_iff, decide_eq_false_iff_not] at hc
    obtain ⟨⟨h1, h2⟩, h3⟩ := hc
    have ih1 := ih (name ++ String.singleton c) (fun d hd => h d (List.mem_cons_of_mem _ hd))
    have e : name ++ String.singleton c ++ String.mk cs = name ++ String.mk (c :: cs) := by
      apply String.ext
      simp [String.singleton]
    simp [readKeysLoop, h1, h2, h3, ih1, e]

theorem readKeysLoop_open (cs : List Char) (names : List String) (name : String) :
    readKeysLoop ('\x7b' :: cs) names false false name = readKeysLoop cs names false true name := by
  rw [readKeysLoop]
  simp

theorem readKeysLoop_close (cs : List Char) (names : List String) (name : String) :
    readKeysLoop ('\x7d' :: cs) names false true name =
      readKeysLoop cs (names ++ [name]) false false "" := by
  rw [readKeysLoop]
  simp

theorem join_singletons (cs : List Char) : String.join (cs.map String.singleton) = String.mk cs := by
  apply String.ext
  rw [String.data_join]
  induction cs with
  | nil => rfl
  | cons c cs ih => simpa [String.singleton] using ih

/-- C2: for strings p, n, q without backslash and braces, readKeys on p, an
opening brace, n, a closing brace and q succeeds with the characters of p one
by one, then the symbol n, then the characters of q one by one; and on a string
without special characters it returns one symbol per character, which
concatenated give back the string. -/
theorem readKeys_plain_name_plain (p n q : String)
    (hp : isPlain p) (hn : isPlain n) (hq : isPlain q) :
    readKeys (p ++ "\x7b" ++ n ++ "\x7d" ++ q) =
        (p.toList.map String.singleton ++ [n] ++ q.toList.map String.singleton, none) ∧
    readKeys p = (p.toList.map String.singleton, none) ∧
    (readKeys p).1.length = p.length ∧
    String.join (readKeys p).1 = p := by
  have hplain : readKeys p = (p.toList.map String.singleton, none) := by
    have := readKeysLoop_plain p.toList [] [] "" hp
    simpa [readKeys, readKeysLoop] using this
  refine ⟨?_, hplain, ?_, ?_⟩
  · have e : (p ++ "\x7b" ++ n ++ "\x7d" ++ q).toList =
        p.toList ++ ('\x7b' :: (n.toList ++ ('\x7d' :: (q.toList ++ [])))) := by
      simp [String.toList]
    unfold readKeys
    rw [e, readKeysLoop_plain _ _ _ _ hp, readKeysLoop_open, readKeysLoop_inside _ _ _ _ hn,
      readKeysLoop_close, readKeysLoop_plain _ _ _ _ hq, readKeysLoop]
    simp
  · rw [hplain]
    show (List.map String.singleton p.toList).length = p.length
    rw [List.length_map]
    rfl
  · rw [hplain]
    simp only
    rw [join_singletons]
    rfl

/-- Witness for C2 at p = ab, n = ENTER, q = c. -/
theorem readKeys_plain_name_plain_witness :
    isPlain "ab" ∧ isPlain "ENTER" ∧ isPlain "c" ∧
    readKeys ("ab" ++ "\x7b" ++ "ENTER" ++ "\x7d" ++ "c") = (["a", "b", "ENTER", "c"], none) ∧
    String.join (readKeys "ab").1 = "ab" :=
  ⟨by decide, by decide, by decide,
    (readKeys_plain_name_plain "ab" "ENTER" "c" (by decide) (by decide) (by decide)).1,
    (readKeys_plain_name_plain "ab" "ENTER" "c" (by decide) (by decide) (by decide)).2.2.2⟩

theorem readKeysLoop_error_no_names (cs : List Char) (names : List String)
    (inEscape inName : Bool) (name : String) :
    (readKeysLoop cs names inEscape inName name).2 ≠ none →
      (readKeysLoop cs names inEscape inName name).1 = [] := by
  induction cs generalizing names inEscape inName name with
  | nil =>
    rw [readKeysLoop]
    split <;> simp
  | cons c cs ih =>
    rw [readKeysLoop]
    split
    · exact ih _ _ _ _
    split
    · exact ih _ _ _ _
    split
    · split
      · simp
      · exact ih _ _ _ _
    split
    · split
      · simp
      · exact ih _ _ _ _
    split
    · exact ih _ _ _ _
    · exact ih _ _ _ _

theorem readKeysLoop_braceScan (cs : List Char) (names : List String) (inName : Bool)
    (name : String) (h : '\\' ∉ cs) :
    (readKeysLoop cs names false inName name).2 =
      (braceScan inName cs).map BraceFault.message := by
  induction cs generalizing names inName name with
  | nil =>
    rw [readKeysLoop, braceScan]
    cases inName <;> rfl
  | cons c cs ih =>
    have hc : c ≠ '\\' := fun e => h (e ▸ List.mem_cons_self _ _)
    have hcs : '\\' ∉ cs := fun m => h (List.mem_cons_of_mem _ m)
    rw [readKeysLoop, braceScan]
    simp only [Bool.false_eq_true, if_false, if_neg hc]
    by_cases h1 : c = '\x7b'
    · simp only [if_pos h1]
      cases inName
      · simpa using ih names true name hcs
      · rfl
    · simp only [if_neg h1]
      by_cases h2 : c = '\x7d'
      · simp only [if_pos h2]
        cases inName
        · rfl
        · simpa using ih (names ++ [name]) false "" hcs
      · simp only [if_neg h2]
        cases inName
        · simpa using ih (names ++ [String.singleton c]) false name hcs
        · simpa using ih names true (name ++ String.singleton c) hcs

/-- C3: for a string without backslash, readKeys returns an error exactly when
the left to right brace scan of the specification finds a fault (an opening
brace inside a name, a closing brace outside a name, or the end of input
inside a name), and the error is the message of that fault; an unterminated
name gives the missing-brace error, the input a followed by a closing brace
gives the unexpected-closing-brace error; and whenever readKeys returns an
error, on any input, the symbol list it returns is nil. -/
theorem readKeys_error_iff_brace_fault :
    (∀ s : String, '\\' ∉ s.toList →
      (((readKeys s).2 ≠ none ↔ braceScan false s.toList ≠ none) ∧
        (readKeys s).2 = (braceScan false s.toList).map BraceFault.message)) ∧
    (∀ s : String, (readKeys s).2 ≠ none → (readKeys s).1 = []) ∧
    readKeys "\x7bunterminated" = ([], some "missing \x7d") ∧
    readKeys "a\x7d" = ([], some "unexpected \x7d") := by
  refine ⟨?_, ?_, by decide, by decide⟩
  · intro s hs
    have e := readKeysLoop_braceScan s.toList [] false "" hs
    refine ⟨?_, e⟩
    unfold readKeys
    rw [e]
    cases braceScan false s.toList <;> simp
  · intro s
    exact readKeysLoop_error_no_names _ _ _ _ _

/-- Witness for C3 at the backslash-free input of an opened and never closed
name. -/
theorem readKeys_error_iff_brace_fault_witness :
    '\\' ∉ "\x7bunterminated".toList ∧
    (readKeys "\x7bunterminated").2 = some "missing \x7d" ∧
    (readKeys "\x7bunterminated").1 = [] :=
  ⟨by decide,
    (readKeys_error_iff_brace_fault.1 "\x7bunterminated" (by decide)).2,
    readKeys_error_iff_brace_fault.2.1 "\x7bunterminated" (by decide)⟩

/-! ## The unsafe gate of the input commands -/

/-- C4: with env.Unsafe set, cmdKeyboard, cmdGamepad and cmdKey return the
remote-source error and leave the platform as it was: the state of the platform
and the list of calls made on it are unchanged, whatever the argument is. -/
theorem unsafe_input_commands_make_no_call {σ : Type} (pl : Platform σ) (env : CmdEnv)
    (r : PlatformRun σ) (h : env.Unsafe = true) :
    cmdKeyboard pl env r = ((CmdResult.zero, some errRemoteSource), r) ∧
    cmdGamepad pl env r = ((CmdResult.zero, some errRemoteSource), r) ∧
    cmdKey pl env r = ((CmdResult.zero, some errRemoteSource), r) := by
  simp [cmdKeyboard, cmdGamepad, cmdKey, h]

/-- Witness for C4: the three commands with a valid key argument and the unsafe
flag set, on a platform with no call made yet. -/
theorem unsafe_input_commands_make_no_call_witness :
    (cmdKeyboard countingPlatform { Args := "a", Unsafe := true } freshRun).1.2 =
        some errRemoteSource ∧
    (cmdKeyboard countingPlatform { Args := "a", Unsafe := true } freshRun).2.calls = [] ∧
    (cmdGamepad countingPlatform { Args := "a", Unsafe := true } freshRun).2.calls = [] ∧
    (cmdKey countingPlatform { Args := "a", Unsafe := true } freshRun).2.calls = [] :=
  have h := unsafe_input_commands_make_no_call countingPlatform { Args := "a", Unsafe := true }
    freshRun rfl
  ⟨congrArg (fun x => x.1.2) h.1, congrArg (fun x => x.2.calls) h.1,
    congrArg (fun x => x.2.calls) h.2.1, congrArg (fun x => x.2.calls) h.2.2⟩

/-- C5: the coin commands do not look at env.Unsafe. With the argument 1 and the
unsafe flag set, cmdCoinP1 returns no error and sends the key 6 to the platform
once, and cmdCoinP2 sends the key 7 once; on every input the result is the one
obtained with the flag cleared. -/
theorem coin_commands_ignore_unsafe :
    (cmdCoinP1 countingPlatform { Args := "1", Unsafe := true } freshRun).1 =
        (CmdResult.zero, none) ∧
    (cmdCoinP1 countingPlatform { Args := "1", Unsafe := true } freshRun).2.calls =
        [.KeyboardInput "6"] ∧
    (cmdCoinP2 countingPlatform { Args := "1", Unsafe := true } freshRun).1 =
        (CmdResult.zero, none) ∧
    (cmdCoinP2 countingPlatform { Args := "1", Unsafe := true } freshRun).2.calls =
        [.KeyboardInput "7"] ∧
    (∀ (σ : Type) (pl : Platform σ) (args : String) (r : PlatformRun σ),
      cmdCoinP1 pl { Args := args, Unsafe := true } r =
          cmdCoinP1 pl { Args := args, Unsafe := false } r ∧
      cmdCoinP2 pl { Args := args, Unsafe := true } r =
          cmdCoinP2 pl { Args := args, Unsafe := false } r) := by
  refine ⟨by decide, by decide, by decide, by decide, ?_⟩
  intro σ pl args r
  exact ⟨rfl, rfl⟩

/-! ## launchToken -/

theorem invocations_append (a b : List Event) :
    invocations (a ++ b) = invocations a ++ invocations b := by
  induction a with
  | nil => rfl
  | cons e a ih => cases e <;> simp [invocations, ih]

theorem published_append (a b : List Event) :
    published (a ++ b) = published a ++ published b := by
  induction a with
  | nil => rfl
  | cons e a ih => cases e <;> simp [published, ih]

theorem launchLoop_cons_error {ω : Type} (handler : SubHandler ω) (token : Token)
    (queue total : Nat) (cmd : String) (rest : List String) (i : Nat) (pls : Option Playlist)
    (w : ω) (e : GoError)
    (he : (handler w { Active := pls, Queue := queue } token cmd total i).1.2 = some e) :
    launchLoop handler token queue total (cmd :: rest) i pls w =
      (some e,
        [.call { plsc := { Active := pls, Queue := queue }, token := token, cmd := cmd,
                 total := total, index := i,
                 result := (handler w { Active := pls, Queue := queue } token cmd total i).1.1,
                 err := some e }],
        (handler w { Active := pls, Queue := queue } token cmd total i).2) := by
  rw [launchLoop]
  simp only [he]

theorem launchLoop_cons_ok {ω : Type} (handler : SubHandler ω) (token : Token)
    (queue total : Nat) (cmd : String) (rest : List String) (i : Nat) (pls : Option Playlist)
    (w : ω)
    (he : (handler w { Active := pls, Queue := queue } token cmd total i).1.2 = none) :
    launchLoop handler token queue total (cmd :: rest) i pls w =
      let out := handler w { Active := pls, Queue := queue } token cmd total i
      let tail := launchLoop handler token queue total rest (i + 1)
        (if out.1.1.PlaylistChanged then out.1.1.Playlist else pls) out.2
      (tail.1,
        .call { plsc := { Active := pls, Queue := queue }, token := token, cmd := cmd,
                total := total, index := i, result := out.1.1, err := none } ::
          ((if out.1.1.MediaChanged && !token.FromAPI then [.publish token] else []) ++ tail.2.1),
        tail.2.2) := by
  rw [launchLoop]
  simp only [he]

theorem invocations_sent (c : Bool) (token : Token) (es : List Event) :
    invocations ((if c then [Event.publish token] else []) ++ es) = invocations es := by
  cases c <;> simp [invocations]

theorem launchLoop_shape {ω : Type} (handler : SubHandler ω) (token : Token)
    (queue total : Nat) (cmds : List String) (i : Nat) (pls : Option Playlist) (w : ω) :
    (invocations (launchLoop handler token queue total cmds i pls w).2.1).map
        (fun v => (v.cmd, v.index, v.total)) =
      ((cmds.enumFrom i).map (fun p => (p.2, p.1, total))).take
        (invocations (launchLoop handler token queue total cmds i pls w).2.1).length ∧
    (cmds ≠ [] →
      (invocations (launchLoop handler token queue total cmds i pls w).2.1).map (fun v => v.err) =
        List.replicate
          ((invocations (launchLoop handler token queue total cmds i pls w).2.1).length - 1) none ++
          [(launchLoop handler token queue total cmds i pls w).1]) ∧
    ((launchLoop handler token queue total cmds i pls w).1 = none →
      (invocations (launchLoop handler token queue total cmds i pls w).2.1).length =
        cmds.length) ∧
    (cmds = [] → (launchLoop handler token queue total cmds i pls w).1 = none) := by
  induction cmds generalizing i pls w with
  | nil => simp [launchLoop, invocations]
  | cons cmd rest ih =>
    cases he : (handler w { Active := pls, Queue := queue } token cmd total i).1.2 with
    | some e =>
      rw [launchLoop_cons_error handler token queue total cmd rest i pls w e he]
      simp [invocations, List.enumFrom]
    | none =>
      rw [launchLoop_cons_ok handler token queue total cmd rest i pls w he]
      simp only [invocations, invocations_sent]
      generalize handler w { Active := pls, Queue := queue } token cmd total i = out at he ⊢
      obtain ⟨h1, h2, h3, h4⟩ := ih (i + 1)
        (if out.1.1.PlaylistChanged then out.1.1.Playlist else pls) out.2
      generalize launchLoop handler token queue total rest (i + 1)
        (if out.1.1.PlaylistChanged then out.1.1.Playlist else pls) out.2 = tl at h1 h2 h3 h4 ⊢
      refine ⟨?_, ?_, ?_, by simp⟩
      · simp only [List.map_cons, List.length_cons, List.enumFrom, List.take_succ_cons]
        rw [← h1]
      · intro _
        cases rest with
        | nil =>
          simp only [List.enumFrom, List.map_nil, List.take_nil, List.map_eq_nil_iff] at h1
          simp [h1, h4 rfl]
        | cons c2 rest2 =>
          have h2a := h2 (List.cons_ne_nil _ _)
          have hlen := congrArg List.length h2a
          simp only [List.length_map, List.length_append, List.length_replicate,
            List.length_singleton] at hlen
          simp only [List.map_cons, List.length_cons, Nat.add_sub_cancel]
          rw [h2a]
          obtain ⟨m, hm⟩ : ∃ m, (invocations tl.2.1).length = m + 1 := ⟨_, hlen⟩
          rw [hm]
          simp [List.replicate_succ]
      · intro hn
        simp only [List.length_cons]
        rw [h3 hn]

theorem splitBars_ne_nil (cur cs : List Char) : splitBars cur cs ≠ [] := by
  induction cur, cs using splitBars.induct with
  | case1 cur => simp [splitBars]
  | case2 cur c => simp [splitBars]
  | case3 cur c d rest h ih => simp [splitBars, h]
  | case4 cur c d rest h ih =>
    rw [splitBars, if_neg h]
    exact ih

theorem intercalate_go_data (acc sep : String) (l : List String) :
    (String.intercalate.go acc sep l).data =
      acc.data ++ (l.map (fun a => sep.data ++ a.data)).flatten := by
  induction l generalizing acc with
  | nil => simp [String.intercalate.go]
  | cons a l ih => simp [String.intercalate.go, ih]

theorem intercalate_data (sep a : String) (l : List String) :
    (String.intercalate sep (a :: l)).data =
      a.data ++ (l.map (fun x => sep.data ++ x.data)).flatten := by
  simp [String.intercalate, intercalate_go_data]

theorem splitBars_join (cur cs : List Char) :
    (String.intercalate "||" (splitBars cur cs)).data = cur ++ cs := by
  induction cur, cs using splitBars.induct with
  | case1 cur => simp [splitBars, String.intercalate, String.intercalate.go]
  | case2 cur c => simp [splitBars, String.intercalate, String.intercalate.go]
  | case3 cur c d rest h ih =>
    rw [splitBars, if_pos h, intercalate_data]
    obtain ⟨a, l, hal⟩ := List.exists_cons_of_ne_nil (splitBars_ne_nil [] rest)
    rw [hal, intercalate_data] at ih
    rw [hal]
    obtain ⟨hc, hd⟩ := h
    subst hc hd
    have e : ("||" : String).data = ['|', '|'] := rfl
    rw [e] at ih
    simp only [List.map_cons, List.flatten_cons, List.append_assoc]
    rw [ih]
    rfl
  | case4 cur c d rest h ih =>
    rw [splitBars, if_neg h, ih]
    simp

theorem splitCmds_join (text : String) : String.intercalate "||" (splitCmds text) = text := by
  apply String.ext
  rw [splitCmds, splitBars_join]
  rfl

theorem splitCmds_ne_nil (text : String) : splitCmds text ≠ [] :=
  splitBars_ne_nil _ _

theorem launchToken_calls_shape {ω : Type} (getMapping : Token → String × Bool)
    (handler : SubHandler ω) (token : Token) (plsc : PlaylistController) (w : ω)
    (hne : scriptText getMapping token ≠ "") :
    (invocations (launchToken getMapping handler token plsc w).2.1).map
        (fun v => (v.cmd, v.index, v.total)) =
      ((splitCmds (scriptText getMapping token)).enum.map
          (fun p => (p.2, p.1, (splitCmds (scriptText getMapping token)).length))).take
        (invocations (launchToken getMapping handler token plsc w).2.1).length ∧
    (invocations (launchToken getMapping handler token plsc w).2.1).map (fun v => v.err) =
      List.replicate
          ((invocations (launchToken getMapping handler token plsc w).2.1).length - 1) none ++
        [(launchToken getMapping handler token plsc w).1] ∧
    ((launchToken getMapping handler token plsc w).1 = none →
      (invocations (launchToken getMapping handler token plsc w).2.1).length =
        (splitCmds (scriptText getMapping token)).length) := by
  have e : launchToken getMapping handler token plsc w =
      launchLoop handler token plsc.Queue (splitCmds (scriptText getMapping token)).length
        (splitCmds (scriptText getMapping token)) 0 plsc.Active w := by
    unfold scriptText at hne
    unfold launchToken scriptText
    simp only
    rw [if_neg hne]
  rw [e]
  obtain ⟨h1, h2, h3, _⟩ := launchLoop_shape handler token plsc.Queue
    (splitCmds (scriptText getMapping token)).length
    (splitCmds (scriptText getMapping token)) 0 plsc.Active w
  exact ⟨h1, h2 (splitCmds_ne_nil _), h3⟩

/-- C6: when the script text is not empty, the calls of the sub-command handler
made by launchToken are, in order, an initial part of the segments of the text
split at the separator, each with its index and the number of segments; every
call but the last returned no error and the error of the last call is what
launchToken returns; and when launchToken returns no error every segment was
handed to the handler. So the calls stop at the first failing segment. -/
theorem launchToken_runs_until_first_error {ω : Type} (getMapping : Token → String × Bool)
    (handler : SubHandler ω) (token : Token) (plsc : PlaylistController) (w : ω)
    (hne : scriptText getMapping token ≠ "") :
    (invocations (launchToken getMapping handler token plsc w).2.1).map
        (fun v => (v.cmd, v.index, v.total)) =
      ((splitCmds (scriptText getMapping token)).enum.map
          (fun p => (p.2, p.1, (splitCmds (scriptText getMapping token)).length))).take
        (invocations (launchToken getMapping handler token plsc w).2.1).length ∧
    (invocations (launchToken getMapping handler token plsc w).2.1).map (fun v => v.err) =
      List.replicate
          ((invocations (launchToken getMapping handler token plsc w).2.1).length - 1) none ++
        [(launchToken getMapping handler token plsc w).1] ∧
    ((launchToken getMapping handler token plsc w).1 = none →
      (invocations (launchToken getMapping handler token plsc w).2.1).length =
        (splitCmds (scriptText getMapping token)).length) :=
  launchToken_calls_shape getMapping handler token plsc w hne

/-- Witness for C6: the script A, B, C with a handler that fails on B. The
handler is called on A with index 0 and on B with index 1, both with the
count 3, and never on C; the error of B is returned. -/
theorem launchToken_runs_until_first_error_witness :
    scriptText noMapping sampleToken ≠ "" ∧
    (invocations (launchToken noMapping failOnB sampleToken noPlaylist 0).2.1).map
        (fun v => (v.cmd, v.index, v.total)) = [("A", 0, 3), ("B", 1, 3)] ∧
    (invocations (launchToken noMapping failOnB sampleToken noPlaylist 0).2.1).map
        (fun v => v.err) = [none, some "B failed"] ∧
    (launchToken noMapping failOnB sampleToken noPlaylist 0).1 = some "B failed" :=
  have h := launchToken_runs_until_first_error noMapping failOnB sampleToken noPlaylist 0
    (by decide)
  ⟨by decide, h.1.trans (by decide), h.2.1.trans (by decide), by decide⟩

theorem launchToken_eq {ω : Type} (getMapping : Token → String × Bool)
    (handler : SubHandler ω) (token : Token) (plsc : PlaylistController) (w : ω) :
    launchToken getMapping handler token plsc w =
      if scriptText getMapping token = "" then (some "no ZapScript in token", [], w)
      else launchLoop handler token plsc.Queue (splitCmds (scriptText getMapping token)).length
        (splitCmds (scriptText getMapping token)) 0 plsc.Active w := by
  unfold launchToken scriptText
  rfl

theorem launchLoop_tokens {ω : Type} (handler : SubHandler ω) (token : Token)
    (queue total : Nat) (cmds : List String) (i : Nat) (pls : Option Playlist) (w : ω) :
    ∀ v ∈ invocations (launchLoop handler token queue total cmds i pls w).2.1,
      v.token = token := by
  induction cmds generalizing i pls w with
  | nil => simp [launchLoop, invocations]
  | cons cmd rest ih =>
    cases he : (handler w { Active := pls, Queue := queue } token cmd total i).1.2 with
    | some e =>
      rw [launchLoop_cons_error handler token queue total cmd rest i pls w e he]
      simp [invocations]
    | none =>
      rw [launchLoop_cons_ok handler token queue total cmd rest i pls w he]
      simp only [invocations, invocations_sent, List.mem_cons]
      rintro v (hv | hv)
      · rw [hv]
      · exact ih _ _ _ v hv

theorem launchToken_tokens {ω : Type} (getMapping : Token → String × Bool)
    (handler : SubHandler ω) (token : Token) (plsc : PlaylistController) (w : ω) :
    ∀ v ∈ invocations (launchToken getMapping handler token plsc w).2.1, v.token = token := by
  rw [launchToken_eq]
  by_cases h : scriptText getMapping token = ""
  · rw [if_pos h]
    simp [invocations]
  · rw [if_neg h]
    exact launchLoop_tokens _ _ _ _ _ _ _ _

theorem launchToken_dispatches_scriptText {ω : Type} (getMapping : Token → String × Bool)
    (handler : SubHandler ω) (token : Token) (plsc : PlaylistController) (w : ω) :
    Dispatches (launchToken getMapping handler token plsc w) (scriptText getMapping token) := by
  constructor
  · intro hempty
    have e : launchToken getMapping handler token plsc w =
        (some "no ZapScript in token", [], w) := by
      unfold scriptText at hempty
      unfold launchToken
      simp only
      rw [if_pos hempty]
    rw [e]
    exact ⟨rfl, rfl⟩
  · intro hne
    obtain ⟨h1, h2, h3⟩ :=
      launchToken_calls_shape getMapping handler token plsc w hne
    have hcmd : (invocations (launchToken getMapping handler token plsc w).2.1).map
          (fun v => v.cmd) =
        (splitCmds (scriptText getMapping token)).take
          (invocations (launchToken getMapping handler token plsc w).2.1).length := by
      have := congrArg (List.map (fun t : String × Nat × Nat => t.1)) h1
      simp only [List.map_map, List.map_take] at this
      rw [show ((fun t : String × Nat × Nat => t.1) ∘ fun v : Invocation =>
          (v.cmd, v.index, v.total)) = (fun v => v.cmd) from rfl] at this
      rw [this]
      congr 1
      rw [List.enum]
      generalize (splitCmds (scriptText getMapping token)).length = n
      generalize 0 = i
      induction splitCmds (scriptText getMapping token) generalizing i with
      | nil => rfl
      | cons a l ih => simp [List.enumFrom, ih]
    have hnil : invocations (launchToken getMapping handler token plsc w).2.1 ≠ [] := by
      intro hn
      have hlen := congrArg List.length h2
      rw [hn] at hlen
      simp at hlen
    refine ⟨hnil, h1, h2, ?_⟩
    intro hn
    have hall : (invocations (launchToken getMapping handler token plsc w).2.1).map
        (fun v => v.cmd) = splitCmds (scriptText getMapping token) := by
      rw [hcmd, h3 hn, List.take_length]
    exact ⟨hall, by rw [hall, splitCmds_join]⟩

/-- C7: the script text that launchToken dispatches is the mapping text when the
mapping lookup reports a mapping, whatever the text of the token is, and the
text of the token when the lookup reports none, which is no error of its own.
For that text, when it is not empty, the handler is called at least once, its
calls are in order an initial part of the segments of the text with their
indexes and the number of segments, every call but the last returned no error,
the error of the last call is what launchToken returns, and a run without
error has called all the segments, which joined by the separator give the text
back unchanged; when that text is empty the run fails with no call. Every call
is handed the token itself, unchanged. -/
theorem launchToken_text_is_mapping_or_token_text {ω : Type}
    (getMapping : Token → String × Bool) (handler : SubHandler ω) (token : Token)
    (plsc : PlaylistController) (w : ω) :
    ((getMapping token).2 = true →
      Dispatches (launchToken getMapping handler token plsc w) (getMapping token).1) ∧
    ((getMapping token).2 = false →
      Dispatches (launchToken getMapping handler token plsc w) token.Text) ∧
    (∀ v ∈ invocations (launchToken getMapping handler token plsc w).2.1, v.token = token) := by
  have h := launchToken_dispatches_scriptText getMapping handler token plsc w
  refine ⟨?_, ?_, launchToken_tokens getMapping handler token plsc w⟩
  · intro hm
    simpa [scriptText, hm] using h
  · intro hm
    simpa [scriptText, hm] using h

/-- Witness for C7: a token with an empty text and a mapping to the text X, Y:
the handler receives X and then Y and the run succeeds; the sample token with
no mapping and a handler that fails on B: the handler receives the segments A
and B of the token text and the error of B is returned. -/
theorem launchToken_text_is_mapping_or_token_text_witness :
    (constMapping "X||Y" Token.zero).2 = true ∧ Token.zero.Text = "" ∧
    Dispatches (launchToken (constMapping "X||Y") mediaHandler Token.zero noPlaylist 0)
      "X||Y" ∧
    (invocations (launchToken (constMapping "X||Y") mediaHandler Token.zero noPlaylist 0).2.1).map
      (fun v => v.cmd) = ["X", "Y"] ∧
    (launchToken (constMapping "X||Y") mediaHandler Token.zero noPlaylist 0).1 = none ∧
    (noMapping sampleToken).2 = false ∧
    Dispatches (launchToken noMapping failOnB sampleToken noPlaylist 0) "A||B||C" ∧
    (invocations (launchToken noMapping failOnB sampleToken noPlaylist 0).2.1).map
      (fun v => (v.cmd, v.err)) = [("A", none), ("B", some "B failed")] :=
  ⟨rfl, rfl,
    (launchToken_text_is_mapping_or_token_text (constMapping "X||Y") mediaHandler Token.zero
      noPlaylist 0).1 rfl,
    by decide, by decide, rfl,
    (launchToken_text_is_mapping_or_token_text noMapping failOnB sampleToken
      noPlaylist 0).2.1 rfl,
    by decide⟩

/-- C8: when the resolved script text is empty, that is the token text is empty
and no mapping is found, or a mapping with an empty text is found, launchToken
returns the error of the missing script, calls the sub-command handler not
once, sends nothing on the last-launched queue and leaves the state of the
handler as it was. -/
theorem launchToken_empty_script_fails {ω : Type} (getMapping : Token → String × Bool)
    (handler : SubHandler ω) (token : Token) (plsc : PlaylistController) (w : ω)
    (hempty : ((getMapping token).2 = false ∧ token.Text = "") ∨
      ((getMapping token).2 = true ∧ (getMapping token).1 = "")) :
    (launchToken getMapping handler token plsc w).1 = some "no ZapScript in token" ∧
    invocations (launchToken getMapping handler token plsc w).2.1 = [] ∧
    published (launchToken getMapping handler token plsc w).2.1 = [] ∧
    (launchToken getMapping handler token plsc w).2.2 = w := by
  have e : launchToken getMapping handler token plsc w =
      (some "no ZapScript in token", [], w) := by
    unfold launchToken
    rcases hempty with ⟨hm, ht⟩ | ⟨hm, ht⟩ <;> simp [hm, ht]
  rw [e]
  exact ⟨rfl, rfl, rfl, rfl⟩

/-- Witness for C8: a token with an empty text and no mapping, and the sample
token with a mapping to the empty text, both with a handler that would report
a media change on any sub-command. -/
theorem launchToken_empty_script_fails_witness :
    ((launchToken noMapping mediaHandler Token.zero noPlaylist 0).1 =
        some "no ZapScript in token" ∧
      invocations (launchToken noMapping mediaHandler Token.zero noPlaylist 0).2.1 = [] ∧
      published (launchToken noMapping mediaHandler Token.zero noPlaylist 0).2.1 = [] ∧
      (launchToken noMapping mediaHandler Token.zero noPlaylist 0).2.2 = 0) ∧
    ((launchToken (constMapping "") mediaHandler sampleToken noPlaylist 0).1 =
        some "no ZapScript in token" ∧
      invocations (launchToken (constMapping "") mediaHandler sampleToken noPlaylist 0).2.1 = [] ∧
      published (launchToken (constMapping "") mediaHandler sampleToken noPlaylist 0).2.1 = [] ∧
      (launchToken (constMapping "") mediaHandler sampleToken noPlaylist 0).2.2 = 0) :=
  ⟨launchToken_empty_script_fails noMapping mediaHandler Token.zero noPlaylist 0
      (Or.inl ⟨rfl, rfl⟩),
    launchToken_empty_script_fails (constMapping "") mediaHandler sampleToken noPlaylist 0
      (Or.inr ⟨rfl, rfl⟩)⟩

/-! ## SetActiveCard -/

/-- C9, as stated, fails: on a fresh state, where the zero token is active, two
calls of SetActiveCard in a row with the zero token, which equals itself under
the equality rule, send no notification at all, not one; and likewise two
calls in a row with the sample token in the state where the sample token is
already the active one. -/
theorem SetActiveCard_twice_on_active_token_sends_nothing :
    TokensEqual NewState.activeToken Token.zero = true ∧
    TokensEqual Token.zero Token.zero = true ∧
    ((NewState.SetActiveCard TokensEqual Token.zero).2 ++
      ((NewState.SetActiveCard TokensEqual Token.zero).1.SetActiveCard
        TokensEqual Token.zero).2).length = 0 ∧
    ((NewState.SetActiveCard TokensEqual Token.zero).2 ++
      ((NewState.SetActiveCard TokensEqual Token.zero).1.SetActiveCard
        TokensEqual Token.zero).2).length ≠ 1 ∧
    TokensEqual sampleToken sampleToken = true ∧
    (({ NewState with activeToken := sampleToken }.SetActiveCard TokensEqual sampleToken).2 ++
      (({ NewState with activeToken := sampleToken }.SetActiveCard
        TokensEqual sampleToken).1.SetActiveCard TokensEqual sampleToken).2).length = 0 := by
  decide

/-- C9, amended: for every equality rule, state and token t, SetActiveCard(t)
when t equals the active token returns the state unchanged in every field and
sends no notification; and for tokens t1 and t2 that are equal under the rule,
when t1 is not equal to the token active before, SetActiveCard(t1) followed by
SetActiveCard(t2) sends exactly one notification in total, the one of the first
call. -/
theorem SetActiveCard_duplicate_is_noop (tokensEqual : Token → Token → Bool) :
    (∀ (s : State) (t : Token), tokensEqual s.activeToken t = true →
      s.SetActiveCard tokensEqual t = (s, [])) ∧
    (∀ (s : State) (t1 t2 : Token), tokensEqual s.activeToken t1 = false →
      tokensEqual t1 t2 = true →
      ((s.SetActiveCard tokensEqual t1).1.SetActiveCard tokensEqual t2).2 = [] ∧
      ((s.SetActiveCard tokensEqual t1).2 ++
        ((s.SetActiveCard tokensEqual t1).1.SetActiveCard tokensEqual t2).2).length = 1) := by
  constructor
  · intro s t h
    simp [State.SetActiveCard, h]
  · intro s t1 t2 hnew hdup
    have hact : (s.SetActiveCard tokensEqual t1).1.activeToken = t1 := by
      unfold State.SetActiveCard
      rw [hnew]
      simp only [Bool.false_eq_true, if_false]
      split <;> rfl
    have hone : (s.SetActiveCard tokensEqual t1).2.length = 1 := by
      unfold State.SetActiveCard
      rw [hnew]
      simp only [Bool.false_eq_true, if_false]
      split <;> rfl
    have hsecond : ((s.SetActiveCard tokensEqual t1).1.SetActiveCard tokensEqual t2).2 = [] := by
      generalize s.SetActiveCard tokensEqual t1 = r at hact
      unfold State.SetActiveCard
      rw [hact, hdup]
      simp
    refine ⟨hsecond, ?_⟩
    rw [hsecond, List.append_nil, hone]

/-- Witness for the amended C9: the sample token scanned twice on a fresh
state. -/
theorem SetActiveCard_duplicate_is_noop_witness :
    TokensEqual NewState.activeToken sampleToken = false ∧
    TokensEqual sampleToken sampleToken = true ∧
    ((NewState.SetActiveCard TokensEqual sampleToken).1.SetActiveCard
      TokensEqual sampleToken) = ((NewState.SetActiveCard TokensEqual sampleToken).1, []) ∧
    ((NewState.SetActiveCard TokensEqual sampleToken).2 ++
      ((NewState.SetActiveCard TokensEqual sampleToken).1.SetActiveCard
        TokensEqual sampleToken).2).length = 1 :=
  ⟨by decide, by decide,
    (SetActiveCard_duplicate_is_noop TokensEqual).1
      (NewState.SetActiveCard TokensEqual sampleToken).1 sampleToken (by decide),
    ((SetActiveCard_duplicate_is_noop TokensEqual).2 NewState sampleToken sampleToken
      (by decide) (by decide)).2⟩

/-- C10: for every equality rule, state and token t not equal to the active
token, SetActiveCard(t) makes t the active token, changes no field other than
the active and the last scanned token, and sends exactly one notification:
when the scan time of t is not zero, t becomes the last scanned token and the
notification is tokens-added with the type, UID, text, data and scan time of t;
when the scan time is zero, the last scanned token stays and the notification
is tokens-removed. -/
theorem SetActiveCard_new_token (tokensEqual : Token → Token → Bool) (s : State) (t : Token)
    (hnew : tokensEqual s.activeToken t = false) :
    (s.SetActiveCard tokensEqual t).1.activeToken = t ∧
    (s.SetActiveCard tokensEqual t).2.length = 1 ∧
    (t.ScanTime.IsZero = false →
      (s.SetActiveCard tokensEqual t).1 = { s with activeToken := t, lastScanned := t } ∧
      (s.SetActiveCard tokensEqual t).2 =
        [{ Method := .TokensAdded,
           Params := .token { Type_ := t.Type_, UID := t.UID, Text := t.Text, Data := t.Data,
                              ScanTime := t.ScanTime } }]) ∧
    (t.ScanTime.IsZero = true →
      (s.SetActiveCard tokensEqual t).1 = { s with activeToken := t } ∧
      (s.SetActiveCard tokensEqual t).1.lastScanned = s.lastScanned ∧
      (s.SetActiveCard tokensEqual t).2 =
        [{ Method := .TokensRemoved, Params := .absent }]) := by
  unfold State.SetActiveCard
  rw [hnew]
  simp only [Bool.false_eq_true, if_false]
  cases hz : t.ScanTime.IsZero <;> simp

/-- Witness for C10: on a fresh state the sample token is added, and after it a
token with a zero scan time is reported as removed, with the sample token
still the last scanned one. -/
theorem SetActiveCard_new_token_witness :
    TokensEqual NewState.activeToken sampleToken = false ∧
    (NewState.SetActiveCard TokensEqual sampleToken).1.activeToken = sampleToken ∧
    (NewState.SetActiveCard TokensEqual sampleToken).1.lastScanned = sampleToken ∧
    (NewState.SetActiveCard TokensEqual sampleToken).2 =
      [{ Method := .TokensAdded,
         Params := .token { Type_ := "NTAG", UID := "04AABB", Text := "A||B||C", Data := "",
                            ScanTime := 1700000000 } }] ∧
    TokensEqual sampleToken Token.zero = false ∧
    ((NewState.SetActiveCard TokensEqual sampleToken).1.SetActiveCard
      TokensEqual Token.zero).1.lastScanned = sampleToken ∧
    ((NewState.SetActiveCard TokensEqual sampleToken).1.SetActiveCard
      TokensEqual Token.zero).2 = [{ Method := .TokensRemoved, Params := .absent }] :=
  have h1 := SetActiveCard_new_token TokensEqual NewState sampleToken (by decide)
  have h2 := SetActiveCard_new_token TokensEqual
    (NewState.SetActiveCard TokensEqual sampleToken).1 Token.zero (by decide)
  ⟨by decide, h1.1, congrArg State.lastScanned (h1.2.2.1 (by decide)).1,
    (h1.2.2.1 (by decide)).2, by decide,
    (h2.2.2.2 (by decide)).2.1.trans (by decide), (h2.2.2.2 (by decide)).2.2⟩

/-! ## The reader map -/

theorem lookup_readersDelete_self (m : List (String × Reader)) (d : String) :
    (readersDelete m d).lookup d = none := by
  induction m with
  | nil => rfl
  | cons e m ih =>
    obtain ⟨k, v⟩ := e
    by_cases hk : k = d
    · simpa [readersDelete, List.filter_cons, hk] using ih
    · have hdk : (d == k) = false := by simpa using fun h : d = k => hk h.symm
      simpa [readersDelete, List.filter_cons, hk, List.lookup, hdk] using ih

theorem lookup_readersDelete_other (m : List (String × Reader)) (d d2 : String) (h : d2 ≠ d) :
    (readersDelete m d).lookup d2 = m.lookup d2 := by
  induction m with
  | nil => rfl
  | cons e m ih =>
    obtain ⟨k, v⟩ := e
    by_cases hk : k = d
    · subst hk
      have hdk : (d2 == k) = false := by simpa using h
      simpa [readersDelete, List.filter_cons, List.lookup, hdk] using ih
    · by_cases hd2 : d2 = k
      · simp [readersDelete, List.filter_cons, hk, List.lookup, hd2]
      · have hdk : (d2 == k) = false := by simpa using hd2
        simpa [readersDelete, List.filter_cons, hk, List.lookup, hdk] using ih

theorem lookup_readersStore_self (m : List (String × Reader)) (d : String) (r : Reader) :
    (readersStore m d r).lookup d = some r := by
  simp [readersStore, List.lookup]

theorem lookup_readersStore_other (m : List (String × Reader)) (d d2 : String) (r : Reader)
    (h : d2 ≠ d) : (readersStore m d r).lookup d2 = m.lookup d2 := by
  have hdk : (d2 == d) = false := by simpa using h
  have := lookup_readersDelete_other m d d2 h
  simpa [readersStore, List.lookup, hdk, readersDelete] using this

/-- What holds of SetReader: SetReader(d, r) completes whenever the value stored
under d is not a nil interface value, and whenever it completes, whatever Close
returns, the
lookup GetReader(d) gives r and found, the handle stored under d before, if
any, has been closed exactly once and no other handle has, and exactly one
notification is sent, readers-connected with the device d. -/
theorem SetReader_completes_off_nil {ρ : Type} (close : CloseFn ρ) (s : State)
    (d : String) (r : Reader) (w : ρ) :
    (s.GetReader d ≠ (none, true) → (s.SetReader close d r w).isSome = true) ∧
    (∀ out, s.SetReader close d r w = some out →
      out.state.GetReader d = (r, true) ∧
      out.notifications = [{ Method := .ReadersConnected, Params := .device d }] ∧
      (∀ h, s.GetReader d = (some h, true) → out.closed = [(h, (close w h).1)]) ∧
      (s.GetReader d = (none, false) → out.closed = [])) := by
  unfold State.SetReader State.GetReader
  cases hl : s.readers.lookup d with
  | none =>
    refine ⟨fun _ => rfl, ?_⟩
    intro out hout
    simp only [Option.some.injEq] at hout
    subst hout
    simp [lookup_readersStore_self]
  | some v =>
    cases v with
    | none =>
      refine ⟨fun h => absurd rfl h, ?_⟩
      intro out hout
      simp at hout
    | some h0 =>
      refine ⟨fun _ => rfl, ?_⟩
      intro out hout
      simp only [Option.some.injEq] at hout
      subst hout
      simp [lookup_readersStore_self]

/-- An instance of the statement above: a state with the handle 7 under the
device pn532 and a Close that fails; SetReader with the handle 8 completes, closes 7 once, stores
8 and sends the notification. -/
theorem SetReader_on_handle_example :
    ({ NewState with readers := [("pn532", some 7)] }.GetReader "pn532" ≠ (none, true)) ∧
    (∃ out, { NewState with readers := [("pn532", some 7)] }.SetReader failingClose
        "pn532" (some 8) 0 = some out ∧
      out.state.GetReader "pn532" = (some 8, true) ∧
      out.closed = [(7, some "close failed")] ∧
      out.notifications = [{ Method := .ReadersConnected, Params := .device "pn532" }]) :=
  have h := SetReader_completes_off_nil failingClose
    { NewState with readers := [("pn532", some 7)] } "pn532" (some 8) 0
  ⟨by decide, _, rfl, (h.2 _ rfl).1, (h.2 _ rfl).2.2.1 7 (by decide), (h.2 _ rfl).2.1⟩

/-- C11: SetReader does not do what the claim says on every state. A fresh
state after SetReader with a nil reader holds nil under the device pn532; on
that state SetReader(pn532, r) with the handle 8 has no result: Close is
called on the nil value before the map is written and before the notification
is sent, so the new reader is not stored and no readers-connected notification
is sent. This is so for every state with nil stored under the device. On every
other state SetReader completes, the lookup then gives the new reader and
found, the handle stored before, if any, is closed exactly once whatever Close
returns, and exactly one readers-connected notification with the device is
sent. -/
theorem SetReader_over_nil_stores_nothing :
    (NewState.SetReader failingClose "pn532" none 0).map
      (fun out => (out.state.readers, out.notifications)) =
      some ([("pn532", none)],
        [{ Method := .ReadersConnected, Params := .device "pn532" }]) ∧
    State.GetReader { NewState with readers := [("pn532", none)] } "pn532" = (none, true) ∧
    ({ NewState with readers := [("pn532", none)] }.SetReader failingClose "pn532"
      (some 8) 0).isNone = true ∧
    (∀ (ρ : Type) (close : CloseFn ρ) (s : State) (d : String) (r : Reader) (w : ρ),
      s.GetReader d = (none, true) → (s.SetReader close d r w).isNone = true) ∧
    (∀ (ρ : Type) (close : CloseFn ρ) (s : State) (d : String) (r : Reader) (w : ρ),
      s.GetReader d ≠ (none, true) →
      ∃ out, s.SetReader close d r w = some out ∧
        out.state.GetReader d = (r, true) ∧
        out.notifications = [{ Method := .ReadersConnected, Params := .device d }] ∧
        (∀ h, s.GetReader d = (some h, true) → out.closed = [(h, (close w h).1)]) ∧
        (s.GetReader d = (none, false) → out.closed = [])) := by
  refine ⟨by decide, by decide, by decide, ?_, ?_⟩
  · intro ρ close s d r w h
    unfold State.GetReader at h
    unfold State.SetReader
    cases hl : s.readers.lookup d with
    | none => simp [hl] at h
    | some v =>
      cases v with
      | none => rfl
      | some h0 => simp [hl] at h
  · intro ρ close s d r w h
    obtain ⟨hsome, hpost⟩ := SetReader_completes_off_nil close s d r w
    cases hout : s.SetReader close d r w with
    | none =>
      have := hsome h
      rw [hout] at this
      simp at this
    | some out => exact ⟨out, rfl, hpost out hout⟩

/-- C12: after RemoveReader(d) the lookup GetReader(d) reports not found, the
handle stored under d before, if any, has been closed once, exactly one
notification is sent, readers-disconnected with the device d, the entries under
every other device are as before, and no other field of the state changes. -/
theorem RemoveReader_removes_closes_notifies {ρ : Type} (close : CloseFn ρ) (s : State)
    (d : String) (w : ρ) :
    (s.RemoveReader close d w).state.GetReader d = (none, false) ∧
    (∀ h, s.GetReader d = (some h, true) →
      (s.RemoveReader close d w).closed = [(h, (close w h).1)]) ∧
    (s.GetReader d = (none, false) → (s.RemoveReader close d w).closed = []) ∧
    (s.RemoveReader close d w).notifications =
      [{ Method := .ReadersDisconnected, Params := .device d }] ∧
    (∀ d2, d2 ≠ d → (s.RemoveReader close d w).state.GetReader d2 = s.GetReader d2) ∧
    (s.RemoveReader close d w).state =
      { s with readers := (s.RemoveReader close d w).state.readers } := by
  have hst : (s.RemoveReader close d w).state = { s with readers := readersDelete s.readers d } := by
    unfold State.RemoveReader
    split <;> rfl
  have hnote : (s.RemoveReader close d w).notifications =
      [{ Method := .ReadersDisconnected, Params := .device d }] := by
    unfold State.RemoveReader
    split <;> rfl
  refine ⟨?_, ?_, ?_, hnote, ?_, ?_⟩
  · rw [hst]
    simp [State.GetReader, lookup_readersDelete_self]
  · intro h hh
    unfold State.GetReader at hh
    unfold State.RemoveReader
    cases hl : s.readers.lookup d with
    | none => simp [hl] at hh
    | some v =>
      cases v with
      | none => simp [hl] at hh
      | some h0 =>
        simp only [hl, Prod.mk.injEq, Option.some.injEq, and_true] at hh
        subst hh
        rfl
  · intro hh
    unfold State.GetReader at hh
    unfold State.RemoveReader
    cases hl : s.readers.lookup d with
    | none => rfl
    | some v => simp [hl] at hh
  · intro d2 hd2
    rw [hst]
    simp [State.GetReader, lookup_readersDelete_other _ _ _ hd2]
  · rw [hst]

/-- Witness for C12: a state with the handle 7 under pn532 and the handle 9
under acr122; removing pn532 closes 7 and leaves acr122 in place. -/
theorem RemoveReader_removes_closes_notifies_witness :
    ({ NewState with readers := [("pn532", some 7), ("acr122", some 9)] }.GetReader "pn532" =
      (some 7, true)) ∧
    ({ NewState with readers := [("pn532", some 7), ("acr122", some 9)] }.RemoveReader
      failingClose "pn532" 0).closed = [(7, some "close failed")] ∧
    ({ NewState with readers := [("pn532", some 7), ("acr122", some 9)] }.RemoveReader
      failingClose "pn532" 0).state.GetReader "pn532" = (none, false) ∧
    ({ NewState with readers := [("pn532", some 7), ("acr122", some 9)] }.RemoveReader
      failingClose "pn532" 0).state.GetReader "acr122" = (some 9, true) :=
  have h := RemoveReader_removes_closes_notifies failingClose
    { NewState with readers := [("pn532", some 7), ("acr122", some 9)] } "pn532" 0
  ⟨by decide, h.2.1 7 (by decide), h.1, (h.2.2.2.2.1 "acr122" (by decide)).trans (by decide)⟩

/-! ## Cancellation -/

theorem SetActiveCard_keeps_stop (tokensEqual : Token → Token → Bool) (s : State) (t : Token) :
    (s.SetActiveCard tokensEqual t).1.stopService = s.stopService ∧
    (s.SetActiveCard tokensEqual t).1.ctxCancelled = s.ctxCancelled := by
  unfold State.SetActiveCard
  split
  · exact ⟨rfl, rfl⟩
  · dsimp only
    split <;> exact ⟨rfl, rfl⟩

theorem SetReader_state {ρ : Type} (close : CloseFn ρ) (s : State) (d : String) (r : Reader)
    (w : ρ) (out : ReaderOutcome ρ) (h : s.SetReader close d r w = some out) :
    out.state = { s with readers := readersStore s.readers d r } := by
  unfold State.SetReader at h
  cases hl : s.readers.lookup d with
  | none =>
    simp only [hl, Option.some.injEq] at h
    subst h
    rfl
  | some v =>
    cases v with
    | none => simp [hl] at h
    | some h0 =>
      simp only [hl, Option.some.injEq] at h
      subst h
      rfl

theorem apply_keeps_stop {ρ : Type} (tokensEqual : Token → Token → Bool) (close : CloseFn ρ)
    (s : State) (w : ρ) (op : StateOp) (s1 : State) (w1 : ρ)
    (hs : s.stopService = true ∧ s.ctxCancelled = true)
    (h : s.apply tokensEqual close w op = some (s1, w1)) :
    s1.stopService = true ∧ s1.ctxCancelled = true := by
  cases op with
  | SetActiveCard card =>
    simp only [State.apply, Option.some.injEq, Prod.mk.injEq] at h
    obtain ⟨h1, _⟩ := h
    subst h1
    obtain ⟨a, b⟩ := SetActiveCard_keeps_stop tokensEqual s card
    exact ⟨a.trans hs.1, b.trans hs.2⟩
  | StopService =>
    simp only [State.apply, Option.some.injEq, Prod.mk.injEq] at h
    obtain ⟨h1, _⟩ := h
    subst h1
    exact ⟨rfl, rfl⟩
  | SetRunZapScript run =>
    simp only [State.apply, Option.some.injEq, Prod.mk.injEq] at h
    obtain ⟨h1, _⟩ := h
    subst h1
    exact hs
  | SetReader device reader =>
    simp only [State.apply] at h
    cases ho : s.SetReader close device reader w with
    | none => simp [ho] at h
    | some out =>
      simp only [ho, Option.some.injEq, Prod.mk.injEq] at h
      obtain ⟨h1, _⟩ := h
      subst h1
      rw [SetReader_state close s device reader w out ho]
      exact hs
  | RemoveReader device =>
    simp only [State.apply, Option.some.injEq, Prod.mk.injEq] at h
    obtain ⟨h1, _⟩ := h
    subst h1
    unfold State.RemoveReader
    split <;> exact hs
  | SetSoftwareToken token =>
    simp only [State.apply, Option.some.injEq, Prod.mk.injEq] at h
    obtain ⟨h1, _⟩ := h
    subst h1
    exact hs
  | SetWroteToken token =>
    simp only [State.apply, Option.some.injEq, Prod.mk.injEq] at h
    obtain ⟨h1, _⟩ := h
    subst h1
    exact hs
  | SetActivePlaylist playlist =>
    simp only [State.apply, Option.some.injEq, Prod.mk.injEq] at h
    obtain ⟨h1, _⟩ := h
    subst h1
    exact hs

theorem applyAll_keeps_stop {ρ : Type} (tokensEqual : Token → Token → Bool) (close : CloseFn ρ)
    (ops : List StateOp) (s : State) (w : ρ) (s1 : State) (w1 : ρ)
    (hs : s.stopService = true ∧ s.ctxCancelled = true)
    (h : State.applyAll tokensEqual close s w ops = some (s1, w1)) :
    s1.stopService = true ∧ s1.ctxCancelled = true := by
  induction ops generalizing s w with
  | nil =>
    simp only [State.applyAll, Option.some.injEq, Prod.mk.injEq] at h
    obtain ⟨h1, _⟩ := h
    subst h1
    exact hs
  | cons op ops ih =>
    rw [State.applyAll] at h
    cases ha : s.apply tokensEqual close w op with
    | none => simp [ha] at h
    | some p =>
      obtain ⟨s2, w2⟩ := p
      simp only [ha] at h
      exact ih s2 w2 (apply_keeps_stop tokensEqual close s w op s2 w2 hs ha) h

theorem applyAll_completes {ρ : Type} (tokensEqual : Token → Token → Bool) (close : CloseFn ρ)
    (ops : List StateOp) (s : State) (w : ρ) (h : ∀ op ∈ ops, op.isSetReader = false) :
    (State.applyAll tokensEqual close s w ops).isSome = true := by
  induction ops generalizing s w with
  | nil => rfl
  | cons op ops ih =>
    have hop := h op (List.mem_cons_self _ _)
    have hrest : ∀ o ∈ ops, o.isSetReader = false := fun o ho => h o (List.mem_cons_of_mem _ ho)
    rw [State.applyAll]
    cases op with
    | SetReader device reader => simp [StateOp.isSetReader] at hop
    | SetActiveCard card => exact ih _ _ hrest
    | StopService => exact ih _ _ hrest
    | SetRunZapScript run => exact ih _ _ hrest
    | RemoveReader device => exact ih _ _ hrest
    | SetSoftwareToken token => exact ih _ _ hrest
    | SetWroteToken token => exact ih _ _ hrest
    | SetActivePlaylist playlist => exact ih _ _ hrest

/-- C13: a fresh state is not stopped and its context is not cancelled; and
from any state, once StopService has been called, after every sequence of
writing operations of State that runs to its end ShouldStopService returns true
and the context is cancelled. Every sequence without SetReader runs to its
end. -/
theorem cancellation_is_terminal :
    NewState.ShouldStopService = false ∧ NewState.Done = false ∧
    (∀ (ρ : Type) (tokensEqual : Token → Token → Bool) (close : CloseFn ρ) (s : State) (w : ρ)
        (ops : List StateOp) (s1 : State) (w1 : ρ),
      State.applyAll tokensEqual close s.StopService w ops = some (s1, w1) →
        s1.ShouldStopService = true ∧ s1.Done = true) ∧
    (∀ (ρ : Type) (tokensEqual : Token → Token → Bool) (close : CloseFn ρ) (s : State) (w : ρ)
        (ops : List StateOp),
      (∀ op ∈ ops, op.isSetReader = false) →
        (State.applyAll tokensEqual close s w ops).isSome = true) := by
  refine ⟨rfl, rfl, ?_, ?_⟩
  · intro ρ tokensEqual close s w ops s1 w1 h
    exact applyAll_keeps_stop tokensEqual close ops s.StopService w s1 w1 ⟨rfl, rfl⟩ h
  · intro ρ tokensEqual close s w ops h
    exact applyAll_completes tokensEqual close ops s w h

/-- Witness for C13: after StopService on a fresh state, a scan, a change of
the run flag, a new reader, its removal and a new playlist leave the state
stopped and the context cancelled. -/
theorem cancellation_is_terminal_witness :
    State.applyAll TokensEqual failingClose NewState.StopService 0
        [.SetActiveCard sampleToken, .SetRunZapScript false, .SetReader "pn532" (some 7),
          .RemoveReader "pn532", .SetActivePlaylist none] = some (stoppedSample, 1) ∧
    stoppedSample.ShouldStopService = true ∧ stoppedSample.Done = true :=
  ⟨by decide,
    cancellation_is_terminal.2.2.1 Nat TokensEqual failingClose NewState 0
      [.SetActiveCard sampleToken, .SetRunZapScript false, .SetReader "pn532" (some 7),
        .RemoveReader "pn532", .SetActivePlaylist none] stoppedSample 1 (by decide)⟩

/-! ## The event loop -/

/-- C14: the loop is not left when the cancellation case is taken. The Done case
ends in the next iteration for every state, and with the context cancelled by
StopService, a token that arrives after the Done case has been taken is still
processed: the after-scan hook is called on it and its launch is started; a
playlist update that arrives after it is installed and launched as well. -/
theorem loop_goes_on_after_cancellation :
    (∀ (ω : Type) (c : Collab ω) (st : State) (w : ω),
      (loopStep c .done st w).control = .iterate) ∧
    NewState.StopService.Done = true ∧
    (processTokenQueue sampleCollab [.done, .token sampleToken] NewState.StopService 0).2.2 =
      [.hook sampleToken (some "hook failed"),
        .spawn (.launchScanned sampleToken
          { DBID := 0, Time := 1700000000, Type_ := "NTAG", UID := "04AABB", Text := "A||B||C",
            Data := "", Success := false })] ∧
    hooked
      (processTokenQueue sampleCollab [.done, .token sampleToken] NewState.StopService 0).2.2 ≠
      [] ∧
    spawned
      (processTokenQueue sampleCollab [.done, .playlist (some samplePlaylist)]
        NewState.StopService 0).2.2 = [.launchPlaylistMedia samplePlaylist none] := by
  refine ⟨fun _ _ _ _ => rfl, by decide, by decide, by decide, by decide⟩

/-- C15: for a token with a zero scan time the token case of the loop does
nothing: no call of the after-scan hook, no history entry, no started task, no
dispatch, and the shared state and the collaborators are as before. -/
theorem zero_time_token_is_ignored {ω : Type} (c : Collab ω) (st : State) (w : ω) (t : Token)
    (hz : t.ScanTime.IsZero = true) :
    (loopStep c (.token t) st w).actions = [] ∧
    (loopStep c (.token t) st w).state = st ∧
    (loopStep c (.token t) st w).world = w ∧
    (loopStep c (.token t) st w).control = .iterate := by
  simp [loopStep, hz]

/-- Witness for C15: the zero token on a fresh state. -/
theorem zero_time_token_is_ignored_witness :
    Time.IsZero Token.zero.ScanTime = true ∧
    (loopStep sampleCollab (.token Token.zero) NewState 0).actions = [] ∧
    (loopStep sampleCollab (.token Token.zero) NewState 0).state = NewState ∧
    (loopStep sampleCollab (.token Token.zero) NewState 0).world = 0 :=
  have h := zero_time_token_is_ignored sampleCollab NewState 0 Token.zero (by decide)
  ⟨by decide, h.1, h.2.1, h.2.2.1⟩

/-- C16: for a token with a non-zero scan time, when the run flag is off, the
token case calls the after-scan hook and then AddHistory, once, with an entry
that has the time, type, UID, text and data of the token and success false;
it starts no task and runs no dispatch, and the shared state is as before. -/
theorem run_disabled_writes_history_only {ω : Type} (c : Collab ω) (st : State) (w : ω)
    (t : Token) (hz : t.ScanTime.IsZero = false) (hrun : st.RunZapScriptEnabled = false) :
    (loopStep c (.token t) st w).actions =
      [.hook t (c.AfterScanHook w t).1,
        .addHistory
          { DBID := 0, Time := t.ScanTime, Type_ := t.Type_, UID := t.UID, Text := t.Text,
            Data := t.Data, Success := false }
          (c.AddHistory (c.AfterScanHook w t).2
            { DBID := 0, Time := t.ScanTime, Type_ := t.Type_, UID := t.UID, Text := t.Text,
              Data := t.Data, Success := false }).1] ∧
    historyWrites (loopStep c (.token t) st w).actions =
      [{ DBID := 0, Time := t.ScanTime, Type_ := t.Type_, UID := t.UID, Text := t.Text,
         Data := t.Data, Success := false }] ∧
    spawned (loopStep c (.token t) st w).actions = [] ∧
    dispatched (loopStep c (.token t) st w).actions = [] ∧
    (loopStep c (.token t) st w).state = st := by
  simp [loopStep, hz, hrun, historyWrites, spawned, dispatched]

/-- Witness for C16: the sample token on a fresh state with the run flag
cleared. -/
theorem run_disabled_writes_history_only_witness :
    Time.IsZero sampleToken.ScanTime = false ∧
    (NewState.SetRunZapScript false).RunZapScriptEnabled = false ∧
    historyWrites (loopStep sampleCollab (.token sampleToken)
      (NewState.SetRunZapScript false) 0).actions =
      [{ DBID := 0, Time := 1700000000, Type_ := "NTAG", UID := "04AABB", Text := "A||B||C",
         Data := "", Success := false }] ∧
    spawned (loopStep sampleCollab (.token sampleToken)
      (NewState.SetRunZapScript false) 0).actions = [] :=
  have h := run_disabled_writes_history_only sampleCollab (NewState.SetRunZapScript false) 0
    sampleToken (by decide) (by decide)
  ⟨by decide, by decide, h.2.1, h.2.2.1⟩

/-- C17: for a token with a non-zero scan time, when the run flag is on, the
token case calls the after-scan hook, whatever it returns, writes no history
entry itself and starts one task; that task, whenever it runs, runs launchToken
on the token and after it calls AddHistory exactly once, with the entry of the
token whose success flag is true exactly when launchToken returned no error.
The task of a playlist launch does the same for the playlist token. -/
theorem launch_writes_one_history_entry {ω : Type} (c : Collab ω) (plq : Nat) :
    (∀ (st : State) (w : ω) (t : Token),
      t.ScanTime.IsZero = false → st.RunZapScriptEnabled = true →
      (loopStep c (.token t) st w).actions =
        [.hook t (c.AfterScanHook w t).1, .spawn (.launchScanned t (historyEntryOf t false))] ∧
      historyWrites (loopStep c (.token t) st w).actions = [] ∧
      (∀ (st2 : State) (w2 : ω),
        (runTask c plq st2 w2 (.launchScanned t (historyEntryOf t false))).1 =
          [.dispatch t { Active := st2.GetActivePlaylist, Queue := plq }
              (launchToken c.getMapping c.handler t
                { Active := st2.GetActivePlaylist, Queue := plq } w2).2.1
              (launchToken c.getMapping c.handler t
                { Active := st2.GetActivePlaylist, Queue := plq } w2).1,
            .addHistory
              (historyEntryOf t (launchToken c.getMapping c.handler t
                { Active := st2.GetActivePlaylist, Queue := plq } w2).1.isNone)
              (c.AddHistory
                (launchToken c.getMapping c.handler t
                  { Active := st2.GetActivePlaylist, Queue := plq } w2).2.2
                (historyEntryOf t (launchToken c.getMapping c.handler t
                  { Active := st2.GetActivePlaylist, Queue := plq } w2).1.isNone)).1] ∧
        (∃ he, historyWrites
            (runTask c plq st2 w2 (.launchScanned t (historyEntryOf t false))).1 = [he] ∧
          he = historyEntryOf t he.Success ∧
          (he.Success = true ↔
            (launchToken c.getMapping c.handler t
              { Active := st2.GetActivePlaylist, Queue := plq } w2).1 = none)))) ∧
    (∀ (pls : Playlist) (active : Option Playlist) (st2 : State) (w2 : ω),
      (runTask c plq st2 w2 (.launchPlaylistMedia pls active)).1 =
        [.dispatch (playlistToken pls (c.Now w2)) { Active := active, Queue := plq }
            (launchToken c.getMapping c.handler (playlistToken pls (c.Now w2))
              { Active := active, Queue := plq } w2).2.1
            (launchToken c.getMapping c.handler (playlistToken pls (c.Now w2))
              { Active := active, Queue := plq } w2).1,
          .addHistory
            (historyEntryOf (playlistToken pls (c.Now w2))
              (launchToken c.getMapping c.handler (playlistToken pls (c.Now w2))
                { Active := active, Queue := plq } w2).1.isNone)
            (c.AddHistory
              (launchToken c.getMapping c.handler (playlistToken pls (c.Now w2))
                { Active := active, Queue := plq } w2).2.2
              (historyEntryOf (playlistToken pls (c.Now w2))
                (launchToken c.getMapping c.handler (playlistToken pls (c.Now w2))
                  { Active := active, Queue := plq } w2).1.isNone)).1] ∧
      (∃ he, historyWrites (runTask c plq st2 w2 (.launchPlaylistMedia pls active)).1 = [he] ∧
        he = historyEntryOf (playlistToken pls (c.Now w2)) he.Success ∧
        (he.Success = true ↔
          (launchToken c.getMapping c.handler (playlistToken pls (c.Now w2))
            { Active := active, Queue := plq } w2).1 = none))) := by
  constructor
  · intro st w t hz hrun
    refine ⟨?_, ?_, ?_⟩
    · simp [loopStep, hz, hrun, historyEntryOf]
    · simp [loopStep, hz, hrun, historyWrites]
    · intro st2 w2
      refine ⟨rfl, _, rfl, rfl, ?_⟩
      simp [historyEntryOf]
  · intro pls active st2 w2
    refine ⟨rfl, _, rfl, rfl, ?_⟩
    simp [historyEntryOf, playlistToken]

/-- Witness for C17: the sample token, whose second sub-command fails, on a
fresh state with a failing after-scan hook: the task writes one entry with
success false; the launch of the sample playlist, which runs without error,
writes one entry with success true. -/
theorem launch_writes_one_history_entry_witness :
    Time.IsZero sampleToken.ScanTime = false ∧ NewState.RunZapScriptEnabled = true ∧
    (loopStep sampleCollab (.token sampleToken) NewState 0).actions =
      [.hook sampleToken (some "hook failed"),
        .spawn (.launchScanned sampleToken (historyEntryOf sampleToken false))] ∧
    historyWrites (runTask sampleCollab 0 NewState 1
      (.launchScanned sampleToken (historyEntryOf sampleToken false))).1 =
      [historyEntryOf sampleToken false] ∧
    (launchToken sampleCollab.getMapping sampleCollab.handler sampleToken
      { Active := NewState.GetActivePlaylist, Queue := 0 } 1).1 = some "B failed" ∧
    historyWrites (runTask sampleCollab 0 NewState 1
      (.launchPlaylistMedia samplePlaylist none)).1 =
      [historyEntryOf (playlistToken samplePlaylist 2) true] :=
  have h := launch_writes_one_history_entry sampleCollab 0
  ⟨by decide, by decide, (h.1 NewState 0 sampleToken (by decide) (by decide)).1,
    by decide, by decide, by decide⟩

/-- C18: when a playlist A is active and the update P has the same current
entry and the same playing flag, the playlist case starts no task and leaves
the state, and with it the active playlist A, as it was; and from a state with
no active playlist, the update of a playing playlist P1 followed by the update
of a playlist P2 with the same current entry and playing flag starts exactly
one task in total, the launch of P1. -/
theorem redundant_playlist_update_is_skipped {ω : Type} (c : Collab ω) :
    (∀ (st : State) (w : ω) (A P : Playlist),
      st.GetActivePlaylist = some A → P.Current = A.Current → P.Playing = A.Playing →
      (loopStep c (.playlist (some P)) st w).actions = [] ∧
      (loopStep c (.playlist (some P)) st w).state = st ∧
      (loopStep c (.playlist (some P)) st w).state.GetActivePlaylist = some A ∧
      (loopStep c (.playlist (some P)) st w).world = w) ∧
    (∀ (st : State) (w : ω) (P1 P2 : Playlist),
      st.GetActivePlaylist = none → P1.Playing = true →
      P2.Current = P1.Current → P2.Playing = P1.Playing →
      spawned (processTokenQueue c [.playlist (some P1), .playlist (some P2)] st w).2.2 =
        [.launchPlaylistMedia P1 none] ∧
      (processTokenQueue c [.playlist (some P1), .playlist (some P2)] st w).1.GetActivePlaylist =
        some P1) := by
  have hskip : ∀ (st : State) (w : ω) (A P : Playlist),
      st.GetActivePlaylist = some A → P.Current = A.Current → P.Playing = A.Playing →
      loopStep c (.playlist (some P)) st w =
        { state := st, world := w, actions := [], control := .iterate } := by
    intro st w A P hA hc hp
    simp [loopStep, hA, hc, hp]
  constructor
  · intro st w A P hA hc hp
    rw [hskip st w A P hA hc hp]
    exact ⟨rfl, rfl, hA, rfl⟩
  · intro st w P1 P2 hnone hplay hc hp
    have h1 : loopStep c (.playlist (some P1)) st w =
        { state := st.SetActivePlaylist (some P1), world := w,
          actions := [.spawn (.launchPlaylistMedia P1 none)], control := .iterate } := by
      simp [loopStep, hnone, hplay]
    have h2 := hskip (st.SetActivePlaylist (some P1)) w P1 P2 rfl hc hp
    simp only [processTokenQueue, h1, h2]
    exact ⟨rfl, rfl⟩

/-- Witness for C18: the sample playlist installed on a fresh state, and then
an update with the same current entry and playing flag but fewer entries. -/
theorem redundant_playlist_update_is_skipped_witness :
    NewState.GetActivePlaylist = none ∧ samplePlaylist.Playing = true ∧
    Playlist.Current { Items := [{ Path := "nes/a.nes" }], Index := 0, Playing := true } =
      samplePlaylist.Current ∧
    spawned (processTokenQueue sampleCollab
      [.playlist (some samplePlaylist),
        .playlist (some { Items := [{ Path := "nes/a.nes" }], Index := 0, Playing := true })]
      NewState 0).2.2 = [.launchPlaylistMedia samplePlaylist none] :=
  ⟨by decide, by decide, by decide,
    ((redundant_playlist_update_is_skipped sampleCollab).2 NewState 0 samplePlaylist
      { Items := [{ Path := "nes/a.nes" }], Index := 0, Playing := true }
      (by decide) (by decide) (by decide) (by decide)).1⟩

/-- C19: a null playlist update makes the active playlist null, whether or not
a playlist was active, changes nothing else in the state, starts no task, calls
neither the after-scan hook nor AddHistory and runs no dispatch. -/
theorem null_playlist_update_clears {ω : Type} (c : Collab ω) (st : State) (w : ω) :
    (loopStep c (.playlist none) st w).state.GetActivePlaylist = none ∧
    (loopStep c (.playlist none) st w).state = { st with activePlaylist := none } ∧
    (loopStep c (.playlist none) st w).actions = [] ∧
    spawned (loopStep c (.playlist none) st w).actions = [] ∧
    historyWrites (loopStep c (.playlist none) st w).actions = [] ∧
    (loopStep c (.playlist none) st w).world = w :=
  ⟨rfl, rfl, rfl, rfl, rfl, rfl⟩

/-- C20: for a playlist update P that is not redundant, that is no playlist is
active or P differs from the active one in the current entry or in the playing
flag, the playlist case makes P the active playlist and starts a task exactly
when P is playing, the launch of P. That task, whenever it runs, builds one
token, with the origin playlist, the path of the current entry of P as text, a
non-zero scan time, no type, UID or data and not from the API, runs launchToken
on that token with the mapping lookup and the handler of the loop, and then
writes the history entry of that run; its actions are exactly that run of
launchToken, with the events and the error that launchToken gives, followed by
that one call of AddHistory. -/
theorem playlist_update_installs_and_launches {ω : Type} (c : Collab ω) (plq : Nat)
    (st : State) (w : ω) (P : Playlist)
    (hnr : st.GetActivePlaylist = none ∨
      ∃ A, st.GetActivePlaylist = some A ∧ (P.Current ≠ A.Current ∨ P.Playing ≠ A.Playing)) :
    (loopStep c (.playlist (some P)) st w).state = st.SetActivePlaylist (some P) ∧
    (loopStep c (.playlist (some P)) st w).state.GetActivePlaylist = some P ∧
    (P.Playing = true →
      (loopStep c (.playlist (some P)) st w).actions =
        [.spawn (.launchPlaylistMedia P st.GetActivePlaylist)]) ∧
    (P.Playing = false → (loopStep c (.playlist (some P)) st w).actions = []) ∧
    (spawned (loopStep c (.playlist (some P)) st w).actions ≠ [] ↔ P.Playing = true) ∧
    (∀ (active : Option Playlist) (st2 : State) (w2 : ω),
      ∃ tok, dispatched (runTask c plq st2 w2 (.launchPlaylistMedia P active)).1 = [tok] ∧
        tok.Source = SourcePlaylist ∧ tok.Text = P.Current.Path ∧
        tok.ScanTime.IsZero = false) ∧
    (∀ (active : Option Playlist) (st2 : State) (w2 : ω),
      ∃ tok : Token,
        tok = { Type_ := "", UID := "", Text := P.Current.Path, Data := "",
                ScanTime := c.Now w2, FromAPI := false, Source := SourcePlaylist } ∧
        tok.ScanTime.IsZero = false ∧
        (runTask c plq st2 w2 (.launchPlaylistMedia P active)).1 =
          [.dispatch tok { Active := active, Queue := plq }
              (launchToken c.getMapping c.handler tok { Active := active, Queue := plq } w2).2.1
              (launchToken c.getMapping c.handler tok { Active := active, Queue := plq } w2).1,
            .addHistory
              (historyEntryOf tok
                (launchToken c.getMapping c.handler tok
                  { Active := active, Queue := plq } w2).1.isNone)
              (c.AddHistory
                (launchToken c.getMapping c.handler tok
                  { Active := active, Queue := plq } w2).2.2
                (historyEntryOf tok
                  (launchToken c.getMapping c.handler tok
                    { Active := active, Queue := plq } w2).1.isNone)).1] ∧
        (runTask c plq st2 w2 (.launchPlaylistMedia P active)).2 =
          (c.AddHistory
            (launchToken c.getMapping c.handler tok { Active := active, Queue := plq } w2).2.2
            (historyEntryOf tok
              (launchToken c.getMapping c.handler tok
                { Active := active, Queue := plq } w2).1.isNone)).2) := by
  have hstep : loopStep c (.playlist (some P)) st w =
      { state := st.SetActivePlaylist (some P), world := w,
        actions := if P.Playing then [.spawn (.launchPlaylistMedia P st.GetActivePlaylist)]
          else [],
        control := .iterate } := by
    rcases hnr with hnone | ⟨A, hA, hdiff⟩
    · cases hp : P.Playing <;> simp [loopStep, hnone, hp]
    · have hcond : ¬ (P.Current = A.Current ∧ P.Playing = A.Playing) := by
        rintro ⟨h1, h2⟩
        rcases hdiff with h | h
        · exact h h1
        · exact h h2
      unfold loopStep
      simp only [hA]
      rw [if_neg hcond]
      cases hp : P.Playing <;> simp
  rw [hstep]
  refine ⟨rfl, rfl, ?_, ?_, ?_, ?_, ?_⟩
  · intro hp
    simp [hp]
  · intro hp
    simp [hp]
  · cases hp : P.Playing <;> simp [spawned]
  · intro active st2 w2
    exact ⟨_, rfl, rfl, rfl, c.Now_nonzero w2⟩
  · intro active st2 w2
    exact ⟨_, rfl, c.Now_nonzero w2, rfl, rfl⟩

/-- Witness for C20: the sample playlist, playing, installed on a fresh state,
and its launch run later: launchToken is run on the playlist token, the
handler is called on the path of the current entry, and the history entry of
the run is written. -/
theorem playlist_update_installs_and_launches_witness :
    NewState.GetActivePlaylist = none ∧
    (loopStep sampleCollab (.playlist (some samplePlaylist)) NewState 0).state.GetActivePlaylist =
      some samplePlaylist ∧
    (loopStep sampleCollab (.playlist (some samplePlaylist)) NewState 0).actions =
      [.spawn (.launchPlaylistMedia samplePlaylist none)] ∧
    dispatched (runTask sampleCollab 0 NewState 5 (.launchPlaylistMedia samplePlaylist none)).1 =
      [{ Type_ := "", UID := "", Text := "nes/a.nes", Data := "", ScanTime := 6,
         FromAPI := false, Source := "playlist" }] ∧
    (runTask sampleCollab 0 NewState 5 (.launchPlaylistMedia samplePlaylist none)).1 =
      [.dispatch (playlistToken samplePlaylist 6) { Active := none, Queue := 0 }
          (launchToken noMapping failOnB (playlistToken samplePlaylist 6)
            { Active := none, Queue := 0 } 5).2.1 none,
        .addHistory (historyEntryOf (playlistToken samplePlaylist 6) true) none] ∧
    (invocations (launchToken noMapping failOnB (playlistToken samplePlaylist 6)
      { Active := none, Queue := 0 } 5).2.1).map (fun v => v.cmd) = ["nes/a.nes"] :=
  have h := playlist_update_installs_and_launches sampleCollab 0 NewState 0 samplePlaylist
    (Or.inl (by decide))
  ⟨by decide, h.2.1, h.2.2.1 (by decide), by decide,
    match h.2.2.2.2.2.2 none NewState 5 with
    | ⟨_, htok, _, hact, _⟩ => (htok ▸ hact).trans (by decide),
    by decide⟩

/-! ## The effects of launchToken -/

theorem published_sent (c : Bool) (token : Token) (es : List Event) :
    published ((if c then [Event.publish token] else []) ++ es) =
      (if c then [token] else []) ++ published es := by
  cases c <;> simp [published]

theorem launchLoop_published {ω : Type} (handler : SubHandler ω) (token : Token)
    (queue total : Nat) (cmds : List String) (i : Nat) (pls : Option Playlist) (w : ω) :
    published (launchLoop handler token queue total cmds i pls w).2.1 =
      ((invocations (launchLoop handler token queue total cmds i pls w).2.1).filter
        (fun v => v.err.isNone && v.result.MediaChanged && !token.FromAPI)).map
        (fun _ => token) := by
  induction cmds generalizing i pls w with
  | nil => simp [launchLoop, invocations, published]
  | cons cmd rest ih =>
    cases he : (handler w { Active := pls, Queue := queue } token cmd total i).1.2 with
    | some e =>
      rw [launchLoop_cons_error handler token queue total cmd rest i pls w e he]
      simp [invocations, published]
    | none =>
      rw [launchLoop_cons_ok handler token queue total cmd rest i pls w he]
      simp only [invocations, invocations_sent, published, published_sent]
      rw [ih]
      cases hm : ((handler w { Active := pls, Queue := queue } token cmd total i).1.1.MediaChanged
        && !token.FromAPI) <;> simp [List.filter_cons, hm]

theorem launchToken_published {ω : Type} (getMapping : Token → String × Bool)
    (handler : SubHandler ω) (token : Token) (plsc : PlaylistController) (w : ω) :
    published (launchToken getMapping handler token plsc w).2.1 =
      ((invocations (launchToken getMapping handler token plsc w).2.1).filter
        (fun v => v.err.isNone && v.result.MediaChanged && !token.FromAPI)).map
        (fun _ => token) := by
  rw [launchToken_eq]
  by_cases h : scriptText getMapping token = ""
  · rw [if_pos h]
    simp [invocations, published]
  · rw [if_neg h]
    exact launchLoop_published _ _ _ _ _ _ _ _

/-- C21, as stated, fails: the sample token does not come from the API and its
first sub-command returns a result that reports a media change together with
an error; launchToken returns that error and nothing is sent on the
last-launched queue. -/
theorem launchToken_failed_media_change_not_published :
    sampleToken.FromAPI = false ∧
    (invocations (launchToken noMapping failedLaunchHandler sampleToken noPlaylist 0).2.1).map
      (fun v => (v.cmd, v.result.MediaChanged, v.err)) = [("A", true, some "launch failed")] ∧
    published (launchToken noMapping failedLaunchHandler sampleToken noPlaylist 0).2.1 = [] := by
  decide

/-- C21, amended: the tokens sent on the last-launched queue during launchToken
are one copy of the token for every sub-command that returned no error and
whose result reports a media change, when the token does not come from the
API, and none at all when the token comes from the API. -/
theorem launchToken_publishes_media_changes {ω : Type} (getMapping : Token → String × Bool)
    (handler : SubHandler ω) (token : Token) (plsc : PlaylistController) (w : ω) :
    (token.FromAPI = false →
      published (launchToken getMapping handler token plsc w).2.1 =
        ((invocations (launchToken getMapping handler token plsc w).2.1).filter
          (fun v => v.err.isNone && v.result.MediaChanged)).map (fun _ => token)) ∧
    (token.FromAPI = true →
      published (launchToken getMapping handler token plsc w).2.1 = []) := by
  have h := launchToken_published getMapping handler token plsc w
  constructor
  · intro hf
    rw [h]
    simp [hf]
  · intro hf
    rw [h]
    simp [hf]

/-- Witness for the amended C21: with a handler that reports a media change on
each of the three sub-commands, the sample token is sent three times; the same
token marked as coming from the API is never sent. -/
theorem launchToken_publishes_media_changes_witness :
    sampleToken.FromAPI = false ∧
    published (launchToken noMapping mediaHandler sampleToken noPlaylist 0).2.1 =
      [sampleToken, sampleToken, sampleToken] ∧
    published (launchToken noMapping mediaHandler { sampleToken with FromAPI := true }
      noPlaylist 0).2.1 = [] :=
  ⟨rfl,
    ((launchToken_publishes_media_changes noMapping mediaHandler sampleToken noPlaylist 0).1
      rfl).trans (by decide),
    (launchToken_publishes_media_changes noMapping mediaHandler
      { sampleToken with FromAPI := true } noPlaylist 0).2 rfl⟩

theorem launchLoop_handed {ω : Type} (handler : SubHandler ω) (token : Token)
    (queue total : Nat) (cmds : List String) (i : Nat) (pls : Option Playlist) (w : ω)
    (j : Nat) (v : Invocation)
    (hv : (invocations (launchLoop handler token queue total cmds i pls w).2.1)[j]? = some v) :
    v.plsc =
      { Active := keptPlaylist pls
          (((invocations (launchLoop handler token queue total cmds i pls w).2.1).take j).map
            (fun u => u.result)),
        Queue := queue } := by
  induction cmds generalizing i pls w j with
  | nil => simp [launchLoop, invocations] at hv
  | cons cmd rest ih =>
    cases he : (handler w { Active := pls, Queue := queue } token cmd total i).1.2 with
    | some e =>
      rw [launchLoop_cons_error handler token queue total cmd rest i pls w e he] at hv ⊢
      simp only [invocations] at hv ⊢
      cases j with
      | zero =>
        simp only [List.getElem?_cons_zero, Option.some.injEq] at hv
        subst hv
        rfl
      | succ j => simp at hv
    | none =>
      rw [launchLoop_cons_ok handler token queue total cmd rest i pls w he] at hv ⊢
      simp only [invocations, invocations_sent] at hv ⊢
      cases j with
      | zero =>
        simp only [List.getElem?_cons_zero, Option.some.injEq] at hv
        subst hv
        rfl
      | succ j =>
        simp only [List.getElem?_cons_succ] at hv
        rw [ih _ _ _ j hv]
        simp [keptPlaylist]

/-- C22, as stated, fails: in the script A, B, C where A returns the sample
playlist with playlist-changed and B reports playlist-changed with a nil
playlist, the sub-command C is handed a nil playlist, while the last non-nil
playlist returned before it is the sample playlist. -/
theorem launchToken_nil_playlist_replaces_kept :
    (invocations (launchToken noMapping playlistHandler sampleToken noPlaylist 0).2.1).map
      (fun v => (v.cmd, v.plsc.Active)) =
      [("A", none), ("B", some samplePlaylist), ("C", none)] ∧
    lastNonNilPlaylist noPlaylist.Active
      (((invocations (launchToken noMapping playlistHandler sampleToken noPlaylist 0).2.1).take
        2).map (fun v => v.result)) = some samplePlaylist := by
  decide

/-- C22, amended: the playlist handed to each sub-command is the playlist, nil
or not, of the last earlier sub-command that reported playlist-changed, or the
playlist that was active at the start of the dispatch when no earlier
sub-command reported playlist-changed; the queue handed on is always the one
of the caller. -/
theorem launchToken_hands_on_changed_playlist {ω : Type} (getMapping : Token → String × Bool)
    (handler : SubHandler ω) (token : Token) (plsc : PlaylistController) (w : ω)
    (j : Nat) (v : Invocation)
    (hv : (invocations (launchToken getMapping handler token plsc w).2.1)[j]? = some v) :
    v.plsc =
      { Active := keptPlaylist plsc.Active
          (((invocations (launchToken getMapping handler token plsc w).2.1).take j).map
            (fun u => u.result)),
        Queue := plsc.Queue } := by
  rw [launchToken_eq] at hv ⊢
  by_cases h : scriptText getMapping token = ""
  · rw [if_pos h] at hv
    simp [invocations] at hv
  · rw [if_neg h] at hv ⊢
    exact launchLoop_handed _ _ _ _ _ _ _ _ j v hv

/-- Witness for the amended C22: in the script A, B, C with the sample playlist
handler the third call is handed the nil playlist that B reported. -/
theorem launchToken_hands_on_changed_playlist_witness :
    (invocations (launchToken noMapping playlistHandler sampleToken noPlaylist 0).2.1)[2]? =
      some thirdCall ∧
    thirdCall.plsc = { Active := none, Queue := 0 } ∧
    keptPlaylist noPlaylist.Active
      (((invocations (launchToken noMapping playlistHandler sampleToken noPlaylist 0).2.1).take
        2).map (fun u => u.result)) = none :=
  ⟨by decide,
    (launchToken_hands_on_changed_playlist noMapping playlistHandler sampleToken noPlaylist 0 2
      thirdCall (by decide)).trans (by decide),
    by decide⟩

/-! ## The playlist handed to a playlist launch -/

/-- C27: the dispatch of a playlist launch is handed the playlist that was
active before the update, not the installed one. On a fresh state the update
with the sample playlist, which is playing, makes it the active playlist and
starts its launch, and the launch, run on the state after the update, hands
launchToken a nil active playlist; in general the launch hands on the playlist
that the closure captured, whatever the state is when it runs, while the
launch of a scanned token hands on the active playlist of the state at the
time it runs. -/
theorem playlist_launch_gets_previous_playlist :
    (loopStep sampleCollab (.playlist (some samplePlaylist)) NewState 0).state.GetActivePlaylist =
      some samplePlaylist ∧
    spawned (loopStep sampleCollab (.playlist (some samplePlaylist)) NewState 0).actions =
      [.launchPlaylistMedia samplePlaylist none] ∧
    dispatchedControllers
      (runTask sampleCollab 0
        (loopStep sampleCollab (.playlist (some samplePlaylist)) NewState 0).state
        (loopStep sampleCollab (.playlist (some samplePlaylist)) NewState 0).world
        (.launchPlaylistMedia samplePlaylist none)).1 = [{ Active := none, Queue := 0 }] ∧
    (∀ (ω : Type) (c : Collab ω) (plq : Nat) (st : State) (w : ω) (P : Playlist)
        (active : Option Playlist),
      dispatchedControllers (runTask c plq st w (.launchPlaylistMedia P active)).1 =
        [{ Active := active, Queue := plq }]) ∧
    (∀ (ω : Type) (c : Collab ω) (plq : Nat) (st : State) (w : ω) (t : Token)
        (he : HistoryEntry),
      dispatchedControllers (runTask c plq st w (.launchScanned t he)).1 =
        [{ Active := st.GetActivePlaylist, Queue := plq }]) := by
  refine ⟨by decide, by decide, by decide, ?_, ?_⟩
  · intro ω c plq st w P active
    rfl
  · intro ω c plq st w t he
    rfl

/-! ## The key presses of cmdKeyboard and cmdGamepad -/

theorem pressLoop_shape {σ : Type} (method : σ → String → Option GoError × σ)
    (mk : String → PlatformCall) (names : List String) (r : PlatformRun σ) :
    (pressLoop (fun r name => ((method r.state name).1,
        { state := (method r.state name).2, calls := r.calls ++ [mk name] })) names r).2.calls =
      r.calls ++ (names.take (leadingSuccesses (pressOutcomes method names r.state) + 1)).map mk ∧
    (pressLoop (fun r name => ((method r.state name).1,
        { state := (method r.state name).2, calls := r.calls ++ [mk name] })) names r).1 =
      (CmdResult.zero,
        ((pressOutcomes method names r.state)[leadingSuccesses
          (pressOutcomes method names r.state)]?).join) := by
  induction names generalizing r with
  | nil => simp [pressLoop, pressOutcomes, leadingSuccesses]
  | cons name rest ih =>
    rw [pressLoop]
    cases hp : (method r.state name).1 with
    | some e =>
      simp [hp, pressOutcomes, leadingSuccesses, List.takeWhile_cons]
    | none =>
      simp only [hp]
      obtain ⟨h1, h2⟩ := ih { state := (method r.state name).2, calls := r.calls ++ [mk name] }
      simp only at h1 h2
      rw [h1, h2]
      simp [pressOutcomes, leadingSuccesses, List.takeWhile_cons, hp]

theorem outcome_none_iff (outs : List (Option GoError)) :
    (outs[leadingSuccesses outs]?).join = none ↔ ∀ o ∈ outs, o = none := by
  induction outs with
  | nil => simp [leadingSuccesses]
  | cons o outs ih =>
    cases o with
    | none =>
      have e : leadingSuccesses (none :: outs) = leadingSuccesses outs + 1 := by
        simp [leadingSuccesses, List.takeWhile_cons]
      rw [e, List.getElem?_cons_succ, ih]
      simp
    | some e =>
      simp [leadingSuccesses, List.takeWhile_cons]

theorem cmdKeyboard_accepted {σ : Type} (pl : Platform σ) (env : CmdEnv) (r : PlatformRun σ)
    (hu : env.Unsafe = false) (hk : (readKeys env.Args).2 = none) :
    cmdKeyboard pl env r = pressLoop pl.doKeyboardPress (readKeys env.Args).1 r ∧
    cmdGamepad pl env r = pressLoop pl.doGamepadPress (readKeys env.Args).1 r := by
  unfold cmdKeyboard cmdGamepad
  rw [hu]
  simp only [Bool.false_eq_true, if_false]
  generalize readKeys env.Args = k at hk
  obtain ⟨names, err⟩ := k
  simp only at hk
  subst hk
  exact ⟨rfl, rfl⟩

theorem cmdKeyboard_rejected {σ : Type} (pl : Platform σ) (env : CmdEnv) (r : PlatformRun σ)
    (hu : env.Unsafe = false) (e : GoError) (hk : (readKeys env.Args).2 = some e) :
    cmdKeyboard pl env r = ((CmdResult.zero, some e), r) ∧
    cmdGamepad pl env r = ((CmdResult.zero, some e), r) := by
  unfold cmdKeyboard cmdGamepad
  rw [hu]
  simp only [Bool.false_eq_true, if_false]
  generalize readKeys env.Args = k at hk
  obtain ⟨names, err⟩ := k
  simp only at hk
  subst hk
  exact ⟨rfl, rfl⟩

/-- C28: with env.Unsafe clear, when readKeys rejects the argument cmdKeyboard
and cmdGamepad return its error and make no call on the platform; when it
accepts, they press the parsed symbols in order, one call each, up to and
including the first press that fails, return the error of that press, and
return no error exactly when every symbol was pressed without error. -/
theorem key_commands_press_parsed_symbols {σ : Type} (pl : Platform σ) (env : CmdEnv)
    (r : PlatformRun σ) (hu : env.Unsafe = false) :
    (∀ e, (readKeys env.Args).2 = some e →
      cmdKeyboard pl env r = ((CmdResult.zero, some e), r) ∧
      cmdGamepad pl env r = ((CmdResult.zero, some e), r)) ∧
    ((readKeys env.Args).2 = none →
      ((cmdKeyboard pl env r).2.calls =
          r.calls ++ ((readKeys env.Args).1.take (leadingSuccesses
            (pressOutcomes pl.KeyboardPress (readKeys env.Args).1 r.state) + 1)).map
            PlatformCall.KeyboardPress ∧
        (cmdKeyboard pl env r).1 =
          (CmdResult.zero,
            ((pressOutcomes pl.KeyboardPress (readKeys env.Args).1 r.state)[leadingSuccesses
              (pressOutcomes pl.KeyboardPress (readKeys env.Args).1 r.state)]?).join) ∧
        ((cmdKeyboard pl env r).1.2 = none ↔
          ∀ o ∈ pressOutcomes pl.KeyboardPress (readKeys env.Args).1 r.state, o = none)) ∧
      ((cmdGamepad pl env r).2.calls =
          r.calls ++ ((readKeys env.Args).1.take (leadingSuccesses
            (pressOutcomes pl.GamepadPress (readKeys env.Args).1 r.state) + 1)).map
            PlatformCall.GamepadPress ∧
        (cmdGamepad pl env r).1 =
          (CmdResult.zero,
            ((pressOutcomes pl.GamepadPress (readKeys env.Args).1 r.state)[leadingSuccesses
              (pressOutcomes pl.GamepadPress (readKeys env.Args).1 r.state)]?).join) ∧
        ((cmdGamepad pl env r).1.2 = none ↔
          ∀ o ∈ pressOutcomes pl.GamepadPress (readKeys env.Args).1 r.state, o = none))) := by
  constructor
  · intro e hk
    exact cmdKeyboard_rejected pl env r hu e hk
  · intro hk
    obtain ⟨ek, eg⟩ := cmdKeyboard_accepted pl env r hu hk
    have hK := pressLoop_shape pl.KeyboardPress PlatformCall.KeyboardPress
      (readKeys env.Args).1 r
    have hG := pressLoop_shape pl.GamepadPress PlatformCall.GamepadPress
      (readKeys env.Args).1 r
    have hK1 : (cmdKeyboard pl env r).2.calls = _ := (congrArg (fun x => x.2.calls) ek).trans hK.1
    have hK2 : (cmdKeyboard pl env r).1 = _ := (congrArg (fun x => x.1) ek).trans hK.2
    have hG1 : (cmdGamepad pl env r).2.calls = _ := (congrArg (fun x => x.2.calls) eg).trans hG.1
    have hG2 : (cmdGamepad pl env r).1 = _ := (congrArg (fun x => x.1) eg).trans hG.2
    refine ⟨⟨hK1, hK2, ?_⟩, ⟨hG1, hG2, ?_⟩⟩
    · rw [hK2]
      exact outcome_none_iff _
    · rw [hG2]
      exact outcome_none_iff _

/-- Witness for C28: on a platform where the press of b fails, the argument
a, b, c makes the presses a and b and returns the error of b; the argument
a, c makes both presses and succeeds; an argument with an unclosed brace makes
no press. -/
theorem key_commands_press_parsed_symbols_witness :
    (cmdKeyboard failOnKeyB { Args := "abc", Unsafe := false } freshRun).2.calls =
      [.KeyboardPress "a", .KeyboardPress "b"] ∧
    (cmdKeyboard failOnKeyB { Args := "abc", Unsafe := false } freshRun).1 =
      (CmdResult.zero, some "press failed") ∧
    (cmdGamepad failOnKeyB { Args := "ac", Unsafe := false } freshRun).2.calls =
      [.GamepadPress "a", .GamepadPress "c"] ∧
    (cmdGamepad failOnKeyB { Args := "ac", Unsafe := false } freshRun).1.2 = none ∧
    (cmdKeyboard failOnKeyB { Args := "a\x7bb", Unsafe := false } freshRun).2.calls = [] :=
  have h1 := (key_commands_press_parsed_symbols failOnKeyB { Args := "abc", Unsafe := false }
    freshRun rfl).2 (by decide)
  have h2 := (key_commands_press_parsed_symbols failOnKeyB { Args := "ac", Unsafe := false }
    freshRun rfl).2 (by decide)
  have h3 := (key_commands_press_parsed_symbols failOnKeyB { Args := "a\x7bb", Unsafe := false }
    freshRun rfl).1 "missing \x7d" (by decide)
  ⟨h1.1.1.trans (by decide), h1.1.2.1.trans (by decide), h2.2.1.trans (by decide),
    h2.2.2.2.mpr (by decide), congrArg (fun x => x.2.calls) h3.1⟩

/-! ## SetReader over a nil reader -/

/-- C29: SetReader does not complete when the value stored under the device is
nil. On a fresh state SetReader with a nil reader completes and stores nil under
the device; the next SetReader on the same device has no result, because Close
is called on the nil value; RemoveReader on that state completes and closes
nothing. -/
theorem SetReader_fails_on_stored_nil :
    (NewState.SetReader failingClose "pn532" none 0).map (fun out => out.state.readers) =
      some [("pn532", none)] ∧
    ({ NewState with readers := [("pn532", none)] }.SetReader failingClose "pn532"
      (some 8) 0).isNone = true ∧
    ({ NewState with readers := [("pn532", none)] }.RemoveReader failingClose "pn532" 0).closed =
      [] ∧
    (∀ (ρ : Type) (close : CloseFn ρ) (s : State) (d : String) (r : Reader) (w : ρ),
      s.GetReader d = (none, true) → (s.SetReader close d r w).isNone = true) := by
  refine ⟨by decide, by decide, by decide, ?_⟩
  intro ρ close s d r w h
  unfold State.GetReader at h
  unfold State.SetReader
  cases hl : s.readers.lookup d with
  | none => simp [hl] at h
  | some v =>
    cases v with
    | none => rfl
    | some h0 => simp [hl] at h

/-! ## checkLink -/

theorem accepted_content (ct : String) :
    (match AcceptedMimeTypes.find? (fun mimeType => stringsContains ct mimeType) with
      | some mimeType => mimeType
      | none => "") =
      if stringsContains ct MimeZaparooZapLink = true then MimeZaparooZapLink else "" := by
  cases h : stringsContains ct MimeZaparooZapLink <;>
    simp [AcceptedMimeTypes, List.find?, h]

theorem checkLink_fetched {ω : Type} (env : LinkEnv ω) (value : String) (w : ω)
    (resp : HttpResponse) (hl : isLink value = true) (hn : env.NewRequest value = none)
    (hd : (env.Do w value acceptHeader).1 = (resp, none)) :
    checkLink env value w =
      if resp.StatusCode ≠ 200 then
        some (.fail "invalid status code" [.httpDo value acceptHeader]
          (env.Do w value acceptHeader).2)
      else if resp.ContentType = "" then
        some (.fail "content type is empty" [.httpDo value acceptHeader]
          (env.Do w value acceptHeader).2)
      else if stringsContains resp.ContentType MimeZaparooZapLink = false then
        some (.fail "no valid content type" [.httpDo value acceptHeader]
          (env.Do w value acceptHeader).2)
      else
        match resp.BodyErr with
        | some e => some (.fail ("error reading body: " ++ e) [.httpDo value acceptHeader]
            (env.Do w value acceptHeader).2)
        | none =>
          match (env.unmarshalZapLink resp.Body).2 with
          | some e => some (.fail ("error unmarshalling body: " ++ e)
              [.httpDo value acceptHeader] (env.Do w value acceptHeader).2)
          | none =>
            match (env.unmarshalZapLink resp.Body).1.Actions with
            | [] => some (.fail "no actions in zap link" [.httpDo value acceptHeader]
                (env.Do w value acceptHeader).2)
            | action :: _ =>
              (runFirstAction env action (env.Do w value acceptHeader).2).map
                (fun out => { out with calls := [.httpDo value acceptHeader] ++ out.calls }) := by
  have hd1 : (env.Do w value (String.intercalate ", " AcceptedMimeTypes)).1 = (resp, none) := hd
  unfold checkLink
  simp only [hl, hn, Bool.not_true, Bool.false_eq_true, if_false, hd1, accepted_content]
  by_cases hs : resp.StatusCode = 200
  · simp only [hs, bne_self_eq_false, Bool.false_eq_true, if_false, ne_eq, not_true_eq_false]
    by_cases hc : resp.ContentType = ""
    · simp only [hc, if_true]
      rfl
    · simp only [hc, if_false]
      cases hk : stringsContains resp.ContentType MimeZaparooZapLink
      · simp only [Bool.false_eq_true, if_false, if_true]
        rfl
      · have hm : MimeZaparooZapLink ≠ "" := by decide
        simp only [if_true, hm, if_false, bne_self_eq_false, Bool.false_eq_true,
          Bool.true_eq_false]
        rfl
  · have hb : (resp.StatusCode != 200) = true := by simpa using hs
    simp only [hb, if_true, ne_eq, hs, not_false_eq_true]
    rfl

theorem contains_ne_empty (ct : String)
    (h : stringsContains ct MimeZaparooZapLink = true) : ct ≠ "" := by
  intro e
  subst e
  revert h
  decide

theorem unmarshal_message_distinct (e : GoError) :
    "error unmarshalling body: " ++ e ≠ "invalid status code" ∧
    "error unmarshalling body: " ++ e ≠ "content type is empty" ∧
    "error unmarshalling body: " ++ e ≠ "no valid content type" ∧
    "error unmarshalling body: " ++ e ≠ "no actions in zap link" := by
  refine ⟨?_, ?_, ?_, ?_⟩ <;>
  · intro h
    have h1 := congrArg (fun s : String => s.data.head?) h
    simp only [String.data_append] at h1
    revert h1
    simp

/-- C23: a value that is not a link gives the empty string and no error, with
no call made. For a link whose fetch is answered, checkLink returns the empty
string and an error when the status is not 200 (invalid status code), when the
content type is empty, when the content type does not contain the zap link
type, when the body does not decode to an envelope, and when the envelope has
no action; the five errors, each given when the earlier checks pass, are
pairwise distinct, and each of the five conditions alone makes checkLink
fail. -/
theorem checkLink_rejects_bad_responses {ω : Type} (env : LinkEnv ω) (value : String)
    (w : ω) :
    (isLink value = false →
      checkLink env value w = some { value := "", err := none, calls := [], world := w }) ∧
    (∀ resp : HttpResponse, isLink value = true → env.NewRequest value = none →
      (env.Do w value acceptHeader).1 = (resp, none) →
      (resp.StatusCode ≠ 200 →
        checkLink env value w = some (.fail "invalid status code"
          [.httpDo value acceptHeader] (env.Do w value acceptHeader).2)) ∧
      (resp.StatusCode = 200 → resp.ContentType = "" →
        checkLink env value w = some (.fail "content type is empty"
          [.httpDo value acceptHeader] (env.Do w value acceptHeader).2)) ∧
      (resp.StatusCode = 200 → resp.ContentType ≠ "" →
        stringsContains resp.ContentType MimeZaparooZapLink = false →
        checkLink env value w = some (.fail "no valid content type"
          [.httpDo value acceptHeader] (env.Do w value acceptHeader).2)) ∧
      (∀ e, resp.StatusCode = 200 →
        stringsContains resp.ContentType MimeZaparooZapLink = true → resp.BodyErr = none →
        (env.unmarshalZapLink resp.Body).2 = some e →
        checkLink env value w = some (.fail ("error unmarshalling body: " ++ e)
          [.httpDo value acceptHeader] (env.Do w value acceptHeader).2)) ∧
      (resp.StatusCode = 200 →
        stringsContains resp.ContentType MimeZaparooZapLink = true → resp.BodyErr = none →
        (env.unmarshalZapLink resp.Body).2 = none →
        (env.unmarshalZapLink resp.Body).1.Actions = [] →
        checkLink env value w = some (.fail "no actions in zap link"
          [.httpDo value acceptHeader] (env.Do w value acceptHeader).2)) ∧
      ((resp.StatusCode ≠ 200 ∨ resp.ContentType = "" ∨
          stringsContains resp.ContentType MimeZaparooZapLink = false ∨
          (env.unmarshalZapLink resp.Body).2 ≠ none ∨
          (env.unmarshalZapLink resp.Body).1.Actions = []) →
        ∃ out, checkLink env value w = some out ∧ out.err ≠ none ∧ out.value = "" ∧
          out.calls = [.httpDo value acceptHeader])) ∧
    (∀ e : GoError,
      ["invalid status code", "content type is empty", "no valid content type",
        "error unmarshalling body: " ++ e, "no actions in zap link"].Nodup) := by
  refine ⟨?_, ?_, ?_⟩
  · intro hl
    simp [checkLink, hl]
  · intro resp hl hn hd
    have hf := checkLink_fetched env value w resp hl hn hd
    refine ⟨?_, ?_, ?_, ?_, ?_, ?_⟩
    · intro hs
      rw [hf, if_pos hs]
    · intro hs hc
      rw [hf, if_neg (by simpa using hs), if_pos hc]
    · intro hs hc hk
      rw [hf, if_neg (by simpa using hs), if_neg hc, if_pos hk]
    · intro e hs hk hb hu
      have hc := contains_ne_empty _ hk
      rw [hf, if_neg (by simpa using hs), if_neg hc, if_neg (by simp [hk])]
      simp only [hb, hu]
    · intro hs hk hb hu ha
      have hc := contains_ne_empty _ hk
      rw [hf, if_neg (by simpa using hs), if_neg hc, if_neg (by simp [hk])]
      simp only [hb, hu, ha]
    · intro hbad
      rw [hf]
      by_cases hs : resp.StatusCode ≠ 200
      · rw [if_pos hs]
        exact ⟨_, rfl, by simp [LinkOutcome.fail], rfl, rfl⟩
      rw [if_neg hs]
      by_cases hc : resp.ContentType = ""
      · rw [if_pos hc]
        exact ⟨_, rfl, by simp [LinkOutcome.fail], rfl, rfl⟩
      rw [if_neg hc]
      by_cases hk : stringsContains resp.ContentType MimeZaparooZapLink = false
      · rw [if_pos hk]
        exact ⟨_, rfl, by simp [LinkOutcome.fail], rfl, rfl⟩
      rw [if_neg hk]
      cases hb : resp.BodyErr with
      | some e => exact ⟨_, rfl, by simp [LinkOutcome.fail], rfl, rfl⟩
      | none =>
        cases hu : (env.unmarshalZapLink resp.Body).2 with
        | some e => exact ⟨_, rfl, by simp [LinkOutcome.fail], rfl, rfl⟩
        | none =>
          cases ha : (env.unmarshalZapLink resp.Body).1.Actions with
          | nil => exact ⟨_, rfl, by simp [LinkOutcome.fail], rfl, rfl⟩
          | cons a rest =>
            exfalso
            rcases hbad with h | h | h | h | h
            · exact hs h
            · exact hc h
            · exact hk h
            · exact h hu
            · simp [ha] at h
  · intro e
    obtain ⟨h1, h2, h3, h4⟩ := unmarshal_message_distinct e
    have d1 : ("invalid status code" : String) ≠ "content type is empty" := by decide
    have d2 : ("invalid status code" : String) ≠ "no valid content type" := by decide
    have d3 : ("invalid status code" : String) ≠ "no actions in zap link" := by decide
    have d4 : ("content type is empty" : String) ≠ "no valid content type" := by decide
    have d5 : ("content type is empty" : String) ≠ "no actions in zap link" := by decide
    have d6 : ("no valid content type" : String) ≠ "no actions in zap link" := by decide
    simp only [List.nodup_cons, List.mem_cons, List.mem_singleton, List.not_mem_nil,
      List.nodup_nil, not_or, or_false, and_true, not_false_eq_true]
    exact ⟨⟨d1, d2, fun h => h1 h.symm, d3⟩, ⟨d4, fun h => h2 h.symm, d5⟩,
      ⟨fun h => h3 h.symm, d6⟩, h4⟩

/-- Witness for C23: a fetch answered with the status 404 fails with the status
error after the one fetch, and a value that is not a link is returned from at
once. -/
theorem checkLink_rejects_bad_responses_witness :
    isLink "https://zpr.au/x" = true ∧ isLink "**launch.system:nes" = false ∧
    (checkLink (sampleLinkEnv { okResponse with StatusCode := 404 } scriptEnvelope cdnMedia [])
      "https://zpr.au/x" 0).map (fun out => (out.value, out.err, out.calls)) =
      some ("", some "invalid status code",
        [.httpDo "https://zpr.au/x" "application/vnd.zaparoo.link"]) ∧
    (checkLink (sampleLinkEnv okResponse scriptEnvelope cdnMedia []) "**launch.system:nes"
      0).map (fun out => (out.value, out.err, out.calls)) = some ("", none, []) :=
  have h := checkLink_rejects_bad_responses
    (sampleLinkEnv { okResponse with StatusCode := 404 } scriptEnvelope cdnMedia [])
    "https://zpr.au/x" 0
  have h2 := checkLink_rejects_bad_responses
    (sampleLinkEnv okResponse scriptEnvelope cdnMedia []) "**launch.system:nes" 0
  ⟨by decide, by decide,
    (congrArg (Option.map (fun out => (out.value, out.err, out.calls)))
      ((h.2.1 { okResponse with StatusCode := 404 } (by decide) rfl rfl).1 (by decide))).trans
      (by decide),
    (congrArg (Option.map (fun out => (out.value, out.err, out.calls)))
      (h2.1 (by decide))).trans (by decide)⟩

theorem checkLink_runs_first_action {ω : Type} (env : LinkEnv ω) (value : String) (w : ω)
    (zl : ZapLink) (a : ZapLinkAction) (hf : fetchesEnvelope env value w zl)
    (ha : zl.Actions.head? = some a) :
    checkLink env value w =
      (runFirstAction env a (env.Do w value acceptHeader).2).map
        (fun out => { out with calls := [.httpDo value acceptHeader] ++ out.calls }) := by
  obtain ⟨hl, hn, he, hs, hk, hb, hu⟩ := hf
  have hd : (env.Do w value acceptHeader).1 = ((env.Do w value acceptHeader).1.1, none) := by
    rw [← he]
  rw [checkLink_fetched env value w _ hl hn hd]
  have hc := contains_ne_empty _ hk
  rw [if_neg (by simpa using hs), if_neg hc, if_neg (by simp [hk])]
  simp only [hb, hu]
  cases hz : zl.Actions with
  | nil => simp [hz] at ha
  | cons b rest =>
    simp only [hz, List.head?_cons, Option.some.injEq] at ha
    subst ha
    rfl

/-- C24: for two fetches that are answered with well-formed envelopes with the
same first action, on the same state of the collaborators after the fetch,
checkLink returns the same string and error, makes the same calls after the
fetch and leaves the same state, whatever the later actions are. When the
lower-cased method of the first action is zapscript and its parameters decode,
the result is the script text of the parameters and no error; when the
lower-cased method is neither zapscript nor media, the result is the
unknown-action error with the method as written. -/
theorem checkLink_uses_first_action_only {ω : Type} (env : LinkEnv ω) :
    (∀ (v1 v2 : String) (w1 w2 : ω) (zl1 zl2 : ZapLink) (a : ZapLinkAction),
      fetchesEnvelope env v1 w1 zl1 → fetchesEnvelope env v2 w2 zl2 →
      zl1.Actions.head? = some a → zl2.Actions.head? = some a →
      (env.Do w1 v1 acceptHeader).2 = (env.Do w2 v2 acceptHeader).2 →
      (checkLink env v1 w1).map (fun out => (out.value, out.err, out.calls.tail, out.world)) =
        (checkLink env v2 w2).map
          (fun out => (out.value, out.err, out.calls.tail, out.world))) ∧
    (∀ (v : String) (w : ω) (zl : ZapLink) (a : ZapLinkAction) (zsp : ZapScriptParams),
      fetchesEnvelope env v w zl → zl.Actions.head? = some a →
      env.ToLower a.Method = "zapscript" →
      env.unmarshalZapScriptParams a.Params = (zsp, none) →
      checkLink env v w =
        some { value := zsp.ZapScript, err := none, calls := [.httpDo v acceptHeader],
               world := (env.Do w v acceptHeader).2 }) ∧
    (∀ (v : String) (w : ω) (zl : ZapLink) (a : ZapLinkAction),
      fetchesEnvelope env v w zl → zl.Actions.head? = some a →
      env.ToLower a.Method ≠ "zapscript" → env.ToLower a.Method ≠ "media" →
      checkLink env v w =
        some (.fail ("unknown action: " ++ a.Method) [.httpDo v acceptHeader]
          (env.Do w v acceptHeader).2)) := by
  refine ⟨?_, ?_, ?_⟩
  · intro v1 v2 w1 w2 zl1 zl2 a h1 h2 ha1 ha2 hw
    rw [checkLink_runs_first_action env v1 w1 zl1 a h1 ha1,
      checkLink_runs_first_action env v2 w2 zl2 a h2 ha2, hw]
    simp only [Option.map_map]
    rfl
  · intro v w zl a zsp hf ha hm hz
    rw [checkLink_runs_first_action env v w zl a hf ha]
    simp [runFirstAction, hm, ZapLinkActionZapScript, hz]
  · intro v w zl a hf ha hm1 hm2
    rw [checkLink_runs_first_action env v w zl a hf ha]
    simp [runFirstAction, hm1, hm2, ZapLinkActionZapScript, ZapLinkActionMedia,
      LinkOutcome.fail]

/-- Witness for C24: the sample envelope with a script action followed by an
action of an unknown kind, and the envelope with the script action alone, both
give the script text; the method is written with capital letters. -/
theorem checkLink_uses_first_action_only_witness :
    (checkLink (sampleLinkEnv okResponse scriptEnvelope cdnMedia []) "https://zpr.au/x" 0).map
      (fun out => (out.value, out.err)) = some ("**launch.system:nes", none) ∧
    (checkLink (sampleLinkEnv okResponse scriptEnvelopeShort cdnMedia []) "https://zpr.au/x"
      0).map (fun out => (out.value, out.err)) = some ("**launch.system:nes", none) :=
  have h1 := (checkLink_uses_first_action_only
    (sampleLinkEnv okResponse scriptEnvelope cdnMedia [])).2.1 "https://zpr.au/x" 0
    scriptEnvelope { Method := "ZapScript", Params := "**launch.system:nes" }
    { ZapScript := "**launch.system:nes" }
    ⟨by decide, rfl, rfl, rfl, by decide, rfl, rfl⟩ rfl (by decide) rfl
  have h2 := (checkLink_uses_first_action_only
    (sampleLinkEnv okResponse scriptEnvelopeShort cdnMedia [])).2.1 "https://zpr.au/x" 0
    scriptEnvelopeShort { Method := "ZapScript", Params := "**launch.system:nes" }
    { ZapScript := "**launch.system:nes" }
    ⟨by decide, rfl, rfl, rfl, by decide, rfl, rfl⟩ rfl (by decide) rfl
  ⟨(congrArg (Option.map (fun out => (out.value, out.err))) h1).trans rfl,
    (congrArg (Option.map (fun out => (out.value, out.err))) h2).trans rfl⟩

/-! ## installRunMedia -/

/-- C25: the safe list is applied to the start of the URL and not to its origin.
The URL of the sample media action has the origin
https://cdn.zaparoo.com.evil.example, which is not on the safe list, and starts
with the first entry of the list; installRunMedia does not refuse it: it
downloads from that URL, writes the file and returns its path with no error.
A URL that starts with no entry of the list is refused with no call made, and
so is a media action without URL. -/
theorem installRunMedia_accepts_lookalike_origin :
    urlOrigin "https://cdn.zaparoo.com.evil.example/game.rom" =
      some "https://cdn.zaparoo.com.evil.example" ∧
    "https://cdn.zaparoo.com.evil.example" ∉ MediaSafeList ∧
    (installRunMedia (sampleLinkEnv okResponse mediaEnvelope lookalikeMedia [nesLauncher])
      { Method := "media", Params := "params" } 0).map
      (fun out => (out.value, out.err, out.calls)) =
      some ("/media/fat/games/NES/game.rom", none,
        [.stat "/media/fat/games/NES/game.rom",
          .writeFile "/tmp/loader.json" "Downloading game...",
          .localClient "run" "**mister.script:zaparoo.sh -show-loader /tmp/loader.json",
          .httpGet "https://cdn.zaparoo.com.evil.example/game.rom",
          .create "/media/fat/games/NES/game.rom",
          .copy "/media/fat/games/NES/game.rom" "ROM",
          .remove "/tmp/loader.json",
          .writeFile "/tmp/.loader-complete" ""]) ∧
    (∀ (ω : Type) (env : LinkEnv ω) (action : ZapLinkAction) (w : ω) (url : String),
      env.platformId = "mister" → (env.unmarshalMediaParams action.Params).2 = none →
      (env.unmarshalMediaParams action.Params).1.Url = some url →
      (∀ safe ∈ MediaSafeList, stringsHasPrefix url safe = false) →
      installRunMedia env action w = some (.fail "media download not in safe list" [] w)) ∧
    (∀ (ω : Type) (env : LinkEnv ω) (action : ZapLinkAction) (w : ω),
      env.platformId = "mister" → (env.unmarshalMediaParams action.Params).2 = none →
      (env.unmarshalMediaParams action.Params).1.Url = none →
      installRunMedia env action w = some (.fail "media download url is empty" [] w)) := by
  refine ⟨by decide, by decide, by decide, ?_, ?_⟩
  · intro ω env action w url hp hu hurl hsafe
    have hany : MediaSafeList.any (fun safe => stringsHasPrefix url safe) = false := by
      rw [List.any_eq_false]
      intro safe hs
      simp [hsafe safe hs]
    unfold installRunMedia
    simp only [hp, bne_self_eq_false, Bool.false_eq_true, if_false, hu, hurl, hany,
      Bool.not_false, if_true]
  · intro ω env action w hp hu hurl
    unfold installRunMedia
    simp only [hp, bne_self_eq_false, Bool.false_eq_true, if_false, hu, hurl]

/-- C30: the first folder is taken from a folder list that is only known not to
be nil. With a launcher of the system whose folder list is empty and not nil,
installRunMedia has no result: the index expression fails at run time; with a
nil folder list it returns the error of the missing folders, and the first
launcher is only taken from a filtered list that is not empty. -/
theorem installRunMedia_indexes_empty_folder_list :
    emptyFoldersLauncher.Folders = some [] ∧
    (installRunMedia (sampleLinkEnv okResponse mediaEnvelope cdnMedia [emptyFoldersLauncher])
      { Method := "media", Params := "params" } 0).isNone = true ∧
    (installRunMedia
      (sampleLinkEnv okResponse mediaEnvelope cdnMedia [{ SystemId := "nes", Folders := none }])
      { Method := "media", Params := "params" } 0).map (fun out => (out.value, out.err)) =
      some ("", some "no folders for launcher") ∧
    (installRunMedia (sampleLinkEnv okResponse mediaEnvelope cdnMedia [])
      { Method := "media", Params := "params" } 0).map (fun out => (out.value, out.err)) =
      some ("", some "no launchers for system: nes") ∧
    (∀ (ω : Type) (env : LinkEnv ω) (action : ZapLinkAction) (w : ω) (url : String)
        (launcher : Launcher) (rest : List Launcher),
      env.platformId = "mister" → (env.unmarshalMediaParams action.Params).2 = none →
      (env.unmarshalMediaParams action.Params).1.Url = some url →
      MediaSafeList.any (fun safe => stringsHasPrefix url safe) = true →
      (env.GetSystem (env.unmarshalMediaParams action.Params).1.System).2 = none →
      env.Launchers.filter (fun l => l.SystemId ==
        (env.GetSystem (env.unmarshalMediaParams action.Params).1.System).1.Id) =
        launcher :: rest →
      launcher.Folders = some [] →
      installRunMedia env action w = none) := by
  refine ⟨rfl, by decide, by decide, by decide, ?_⟩
  intro ω env action w url launcher rest hp hu hurl hsafe hsys hl hf
  unfold installRunMedia
  simp only [hp, bne_self_eq_false, Bool.false_eq_true, if_false, hu, hurl, hsafe,
    Bool.not_true, hsys, hl, hf]

/-! ## The flag -launch of the command line -/

/-- C26: with -launch given and -run not given, Flags.Post takes the run branch
and encodes the value of -run, which is empty: the request sent for -launch v
carries the empty text, while the request sent for -run v carries v. This holds
for every value of -launch and all collaborators. -/
theorem launch_flag_sends_empty_text :
    (Flags.Post sampleCliEnv { Flags.defaults with Launch := "**launch.system:nes" } 0).calls =
      [.localClient "run" "text="] ∧
    (Flags.Post sampleCliEnv { Flags.defaults with Run := "**launch.system:nes" } 0).calls =
      [.localClient "run" "text=**launch.system:nes"] ∧
    (∀ (ω : Type) (env : CliEnv ω) (v : String) (w : ω), v ≠ "" →
      (env.marshalRunParams { Text := some "" }).2 = none →
      (Flags.Post env { Flags.defaults with Launch := v } w).calls.head? =
        some (.localClient env.MethodRun (env.marshalRunParams { Text := some "" }).1)) := by
  refine ⟨by decide, by decide, ?_⟩
  intro ω env v w hv hm
  simp only [Flags.Post, Flags.defaults, CliOutcome.andThen, Bool.false_eq_true, if_false,
    ne_eq, not_true_eq_false, hv, not_false_eq_true, or_true, if_true, hm, false_or]
  cases (env.LocalClient w env.MethodRun (env.marshalRunParams { Text := some "" }).1).1.2 <;>
    rfl

end Zaparoo
